import Mathlib

/-!
Verification of the link-budget calculation engine of ntn-lbtools
(backend/src/core and backend/src/services) against its specification.

The Python sources are shallowly embedded: floats are modelled as real
numbers, `dict`-based optional fields as `Option`, Python truthiness of a
float as "present and nonzero", exceptions as `Except`, and the f-string
warning messages as a small inductive type carrying the numeric payload of
the message.
-/

open Real

noncomputable section

namespace LinkBudget

/-- Warning messages appended by the impairment code
(src/backend/src/core/impairments.py and the inline copy in
calculation_service.py).  The f-string text is abstracted to a constructor
carrying the interpolated numeric values. -/
inductive Warning
  | interference (aggregate_ci_db : ℝ) (degraded_by_db : ℝ)
  | intermod (c_im_db : ℝ) (degraded_by_db : ℝ)

/-- Embedding of the dataclass `CalculationResult`
(src/backend/src/core/models/common.py). -/
structure CalculationResult where
  direction : String
  fspl_db : ℝ
  rain_loss_db : ℝ
  gas_loss_db : ℝ
  cloud_loss_db : ℝ
  atm_loss_db : ℝ
  antenna_pointing_loss_db : ℝ
  gt_db_per_k : ℝ
  cn_db : ℝ
  cn0_dbhz : ℝ
  link_margin_db : ℝ
  clean_link_margin_db : Option ℝ := none
  clean_cn_db : Option ℝ := none
  modcod_selected : Option String := none
  eirp_dbw : Option ℝ := none
  bandwidth_hz : Option ℝ := none
  cni_db : Option ℝ := none
  cni0_dbhz : Option ℝ := none
  c_im_db : Option ℝ := none
  interference_applied : Bool := false
  intermod_applied : Bool := false
  warnings : Option (List Warning) := none

/-- Embedding of the per-direction `interference` block of the request
(schema `InterferenceModel`); absent keys are `none`. -/
structure InterferenceBlock where
  adjacent_sat_ci_db : Option ℝ := none
  cross_polar_ci_db : Option ℝ := none
  other_carrier_ci_db : Option ℝ := none
  applied : Bool := false

instance : Inhabited InterferenceBlock := ⟨{}⟩

/-- Embedding of the `intermodulation` block of the request
(schema `IntermodulationModel`). -/
structure IntermodBlock where
  composite_carriers : Option ℝ := none
  output_backoff_db : Option ℝ := none
  input_backoff_db : Option ℝ := none

/-- Embedding of `compute_interference` (src/backend/src/core/impairments.py,
lines 10-36).  Returns `(i_over_c_linear, aggregate_ci_db, applied_flag)`.
A `none` argument plays the role of a missing or empty block. -/
def compute_interference (interference_block : Option InterferenceBlock) :
    ℝ × Option ℝ × Bool :=
  let block := interference_block.getD {}
  let ci_values := [block.adjacent_sat_ci_db, block.cross_polar_ci_db,
    block.other_carrier_ci_db]
  let inv_terms := ci_values.filterMap (fun value =>
    match value with
    | none => none
    | some v =>
      let ci_lin : ℝ := (10 : ℝ) ^ (v / 10)
      if ci_lin ≤ 0 then none else some (1 / ci_lin))
  let i_over_c := inv_terms.sum
  let aggregate_ci_db : Option ℝ :=
    if 0 < i_over_c then some (10 * Real.logb 10 (1 / i_over_c)) else none
  let applied := block.applied || ci_values.any (·.isSome)
  (i_over_c, aggregate_ci_db, applied)

/-- Embedding of `estimate_intermodulation`
(src/backend/src/core/impairments.py, lines 39-55). A `none` argument plays
the role of a missing or empty (falsy) block. -/
def estimate_intermodulation (intermod_block : Option IntermodBlock) :
    Option ℝ × Bool :=
  match intermod_block with
  | none => (none, false)
  | some block =>
    let backoff : Option ℝ :=
      match block.output_backoff_db with
      | some o => some o
      | none => block.input_backoff_db
    match backoff, block.composite_carriers with
    | some b, some carriers =>
      if carriers < 1 then (none, false)
      else (some (max 0 (2 * b + 7 - 10 * Real.logb 10 carriers)), true)
    | _, _ => (none, false)

/-- Embedding of `combine_cn_db` (src/backend/src/core/impairments.py,
lines 58-63). -/
def combine_cn_db (ul_cn dl_cn : ℝ) : ℝ :=
  let ul_lin : ℝ := (10 : ℝ) ^ (ul_cn / 10)
  let dl_lin : ℝ := (10 : ℝ) ^ (dl_cn / 10)
  let combined_lin := 1 / (1 / ul_lin + 1 / dl_lin)
  10 * Real.logb 10 combined_lin

/-- Embedding of `apply_impairments` (src/backend/src/core/impairments.py,
lines 66-131).  Python float truthiness (`if not bandwidth_hz`,
`if apply_intermod and c_im_db_value`) is modelled as "present and nonzero";
the `updates` dict is modelled by option-valued intermediates merged into
the final record exactly as `dataclasses.replace` does.  The dead
`result.link_margin_db is not None` test is always true because the
dataclass field is non-optional. -/
def apply_impairments (result : CalculationResult) (bandwidth_hz : Option ℝ)
    (i_over_c : ℝ) (aggregate_ci_db : Option ℝ) (interference_flag : Bool)
    (apply_intermod : Bool) (c_im_db_value : Option ℝ) : CalculationResult :=
  match bandwidth_hz with
  | none => result
  | some bw =>
    if bw = 0 then result else
    let base_cn0 := result.cn0_dbhz
    let base_cn := result.cn_db
    let cn_lin : ℝ := (10 : ℝ) ^ (base_cn / 10)
    let thermal_term := 1 / cn_lin
    let interference_term := if 0 < i_over_c then i_over_c else 0
    let cni_db_upd : ℝ :=
      if 0 < interference_term then
        10 * Real.logb 10 (1 / (thermal_term + interference_term))
      else base_cn
    let cni0_upd : ℝ :=
      if 0 < interference_term then cni_db_upd + 10 * Real.logb 10 bw
      else base_cn0
    let intermodData : Option ℝ :=
      if apply_intermod then
        match c_im_db_value with
        | some v =>
          if v = 0 then none
          else if 0 < (10 : ℝ) ^ (v / 10) then some v else none
        | none => none
      else none
    let intermod_term : ℝ :=
      match intermodData with
      | some v => 1 / (10 : ℝ) ^ (v / 10)
      | none => 0
    let total_term := thermal_term + interference_term + intermod_term
    let cnUpd : Option (ℝ × ℝ × ℝ) :=
      if 0 < total_term then
        let cn_db_effective := 10 * Real.logb 10 (1 / total_term)
        some (cn_db_effective, cn_db_effective + 10 * Real.logb 10 bw,
          result.link_margin_db + (cn_db_effective - base_cn))
      else none
    let interference_applied_upd : Bool :=
      interference_flag || decide (0 < interference_term)
    let cn_db_val : ℝ :=
      match cnUpd with
      | some (c, _, _) => c
      | none => result.cn_db
    let intermod_flag : Bool :=
      if intermodData.isSome then true else result.intermod_applied
    let c_im_val : Option ℝ :=
      match intermodData with
      | some v => some v
      | none => result.c_im_db
    let warnings0 := result.warnings.getD []
    let warnings1 :=
      match aggregate_ci_db with
      | some agg =>
        if interference_applied_upd then
          warnings0 ++ [Warning.interference agg (base_cn - cni_db_upd)]
        else warnings0
      | none => warnings0
    let warnings2 :=
      match c_im_val with
      | some civ =>
        if intermod_flag then
          warnings1 ++ [Warning.intermod civ (base_cn - cn_db_val)]
        else warnings1
      | none => warnings1
    { result with
        cni_db := some cni_db_upd
        cni0_dbhz := some cni0_upd
        c_im_db := c_im_val
        intermod_applied := intermod_flag
        cn_db := cn_db_val
        cn0_dbhz :=
          match cnUpd with
          | some (_, c0, _) => c0
          | none => result.cn0_dbhz
        link_margin_db :=
          match cnUpd with
          | some (_, _, m) => m
          | none => result.link_margin_db
        interference_applied := interference_applied_upd
        warnings := some warnings2 }

/-- Embedding of one direction's dict inside the request `runtime` block
(consumed via `dict.get` in calculation_service.py); absent keys are
`none`. -/
structure DirectionData where
  frequency_hz : Option ℝ := none
  bandwidth_hz : Option ℝ := none
  elevation_deg : Option ℝ := none
  rain_rate_mm_per_hr : Option ℝ := none
  temperature_k : Option ℝ := none
  pressure_hpa : Option ℝ := none
  water_vapor_density : Option ℝ := none
  ground_lat_deg : Option ℝ := none
  ground_lon_deg : Option ℝ := none
  ground_alt_m : Option ℝ := none
  interference : Option InterferenceBlock := none

namespace CalculationService

/-- Embedding of the inline helper `_interference_inputs`
(src/backend/src/services/calculation_service.py, lines 147-167). -/
def interference_inputs (direction_data : DirectionData) : ℝ × Option ℝ × Bool :=
  let block := direction_data.interference.getD {}
  let ci_values := [block.adjacent_sat_ci_db, block.cross_polar_ci_db,
    block.other_carrier_ci_db]
  let inv_terms := ci_values.filterMap (fun value =>
    match value with
    | none => none
    | some v =>
      let ci_lin : ℝ := (10 : ℝ) ^ (v / 10)
      if ci_lin ≤ 0 then none else some (1 / ci_lin))
  let i_over_c := inv_terms.sum
  let aggregate_ci_db : Option ℝ :=
    if 0 < i_over_c then some (10 * Real.logb 10 (1 / i_over_c)) else none
  let applied := block.applied || ci_values.any (·.isSome)
  (i_over_c, aggregate_ci_db, applied)

/-- Embedding of the inline helper `_estimate_c_im`
(src/backend/src/services/calculation_service.py, lines 169-181). -/
def estimate_c_im (intermod_block : Option IntermodBlock) : Option ℝ × Bool :=
  match intermod_block with
  | none => (none, false)
  | some block =>
    let backoff : Option ℝ :=
      match block.output_backoff_db with
      | some o => some o
      | none => block.input_backoff_db
    match backoff, block.composite_carriers with
    | some b, some carriers =>
      if carriers < 1 then (none, false)
      else (some (max 0 (2 * b + 7 - 10 * Real.logb 10 carriers)), true)
    | _, _ => (none, false)

/-- Embedding of the inline helper `_apply_impairments`
(src/backend/src/services/calculation_service.py, lines 317-378); the body
is guarded by `if bandwidth_hz:` with a final `return result`. -/
def apply_impairments (result : CalculationResult) (bandwidth_hz : Option ℝ)
    (i_over_c : ℝ) (aggregate_ci_db : Option ℝ) (interference_flag : Bool)
    (apply_intermod : Bool) (c_im_db_value : Option ℝ) : CalculationResult :=
  match bandwidth_hz with
  | some bw =>
    if bw = 0 then result else
    let base_cn0 := result.cn0_dbhz
    let base_cn := result.cn_db
    let cn_lin : ℝ := (10 : ℝ) ^ (base_cn / 10)
    let thermal_term := 1 / cn_lin
    let interference_term := if 0 < i_over_c then i_over_c else 0
    let cni_db_upd : ℝ :=
      if 0 < interference_term then
        10 * Real.logb 10 (1 / (thermal_term + interference_term))
      else base_cn
    let cni0_upd : ℝ :=
      if 0 < interference_term then cni_db_upd + 10 * Real.logb 10 bw
      else base_cn0
    let intermodData : Option ℝ :=
      if apply_intermod then
        match c_im_db_value with
        | some v =>
          if v = 0 then none
          else if 0 < (10 : ℝ) ^ (v / 10) then some v else none
        | none => none
      else none
    let intermod_term : ℝ :=
      match intermodData with
      | some v => 1 / (10 : ℝ) ^ (v / 10)
      | none => 0
    let total_term := thermal_term + interference_term + intermod_term
    let cnUpd : Option (ℝ × ℝ × ℝ) :=
      if 0 < total_term then
        let cn_db_effective := 10 * Real.logb 10 (1 / total_term)
        some (cn_db_effective, cn_db_effective + 10 * Real.logb 10 bw,
          result.link_margin_db + (cn_db_effective - base_cn))
      else none
    let interference_applied_upd : Bool :=
      interference_flag || decide (0 < interference_term)
    let cn_db_val : ℝ :=
      match cnUpd with
      | some (c, _, _) => c
      | none => result.cn_db
    let intermod_flag : Bool :=
      if intermodData.isSome then true else result.intermod_applied
    let c_im_val : Option ℝ :=
      match intermodData with
      | some v => some v
      | none => result.c_im_db
    let warnings0 := result.warnings.getD []
    let warnings1 :=
      match aggregate_ci_db with
      | some agg =>
        if interference_applied_upd then
          warnings0 ++ [Warning.interference agg (base_cn - cni_db_upd)]
        else warnings0
      | none => warnings0
    let warnings2 :=
      match c_im_val with
      | some civ =>
        if intermod_flag then
          warnings1 ++ [Warning.intermod civ (base_cn - cn_db_val)]
        else warnings1
      | none => warnings1
    { result with
        cni_db := some cni_db_upd
        cni0_dbhz := some cni0_upd
        c_im_db := c_im_val
        intermod_applied := intermod_flag
        cn_db := cn_db_val
        cn0_dbhz :=
          match cnUpd with
          | some (_, c0, _) => c0
          | none => result.cn0_dbhz
        link_margin_db :=
          match cnUpd with
          | some (_, _, m) => m
          | none => result.link_margin_db
        interference_applied := interference_applied_upd
        warnings := some warnings2 }
  | none => result

end CalculationService

/-- Embedding of the dataclass `ModcodEntry`
(src/backend/src/core/strategies/dvbs2x.py, lines 96-105). -/
structure ModcodEntry where
  id : String
  modulation : String := ""
  code_rate : String := ""
  required_cn0_dbhz : Option ℝ := none
  required_ebno_db : Option ℝ := none
  info_bits_per_symbol : Option ℝ := none
  rolloff : Option ℝ := none
  pilots : Option Bool := none

/-- Embedding of a loosely-typed input dict restricted to `_MODCOD_FIELDS`
(`_clean_modcod_dict` keeps exactly these keys).  The numeric fields are
typed as numbers-or-absent: `_coerce_float` is the identity on such values
and sends non-numeric junk to `None`, which is subsumed by `none` here.
`id`, `modulation` and `code_rate` must be present for
`ModcodEntry(**cleaned)` to succeed, hence are typed as `String`. -/
structure RawModcodEntry where
  id : String
  modulation : String
  code_rate : String
  required_cn0_dbhz : Option ℝ := none
  required_ebno_db : Option ℝ := none
  info_bits_per_symbol : Option ℝ := none
  rolloff : Option ℝ := none
  pilots : Option Bool := none

/-- Numeric value of a digit string (used by the float-literal parser). -/
def digitsVal (s : String) : ℕ :=
  s.foldl (fun acc c => acc * 10 + (c.toNat - 48)) 0

/-- Restriction of Python `float(text)` to plain decimal literals
`[+|-] digits [. digits]` (at least one digit overall); exponent forms,
`inf`/`nan` and underscore separators are not modelled — the code-rate
strings of ModCod tables only use the plain forms.  Returns a rational so
the parser stays computable. -/
def parsePyFloat (s : String) : Option ℚ :=
  let (sign, body) : ℚ × String :=
    if s.startsWith "-" then (-1, s.drop 1)
    else if s.startsWith "+" then (1, s.drop 1)
    else (1, s)
  match body.splitOn "." with
  | [intPart] =>
    if intPart.length > 0 && intPart.all Char.isDigit then
      some (sign * (digitsVal intPart : ℚ))
    else none
  | [intPart, fracPart] =>
    if (intPart.length + fracPart.length > 0) && intPart.all Char.isDigit &&
        fracPart.all Char.isDigit then
      some (sign * ((digitsVal intPart : ℚ) +
        (digitsVal fracPart : ℚ) / (10 : ℚ) ^ fracPart.length))
    else none
  | _ => none

/-- Embedding of `_parse_code_rate` (dvbs2x.py, lines 30-49); accepts
"a/b" (split at the first slash) or a plain decimal. -/
def parse_code_rate (value : Option String) : Option ℚ :=
  match value with
  | none => none
  | some v =>
    if v = "" then none else
    let text := v.trim
    if text = "" then none
    else if text.contains '/' then
      match text.splitOn "/" with
      | [] => none
      | p :: rest =>
        let q := String.intercalate "/" rest
        match parsePyFloat p.trim, parsePyFloat q.trim with
        | some numerator, some denominator =>
          if denominator = 0 then none else some (numerator / denominator)
        | _, _ => none
    else parsePyFloat text

/-- First maximal run of digit characters in a string (the digit-collection
loop of `_modulation_bits`). -/
def firstDigitRun : List Char → List Char
  | [] => []
  | c :: rest =>
    if c.isDigit then c :: rest.takeWhile Char.isDigit else firstDigitRun rest

/-- Embedding of `_modulation_bits` (dvbs2x.py, lines 52-78): named aliases
for BPSK/QPSK/OQPSK, else log2 of the first digit run of the label. -/
def modulation_bits (modulation : Option String) : Option ℝ :=
  match modulation with
  | none => none
  | some m =>
    if m = "" then none else
    let mod := m.trim.toUpper
    if mod = "" then none
    else if mod = "BPSK" then some 1.0
    else if mod = "QPSK" then some 2.0
    else if mod = "OQPSK" then some 2.0
    else
      match firstDigitRun mod.data with
      | [] => none
      | ds =>
        let order := digitsVal (String.mk ds)
        if 0 < order then some (Real.logb 2 order) else none

/-- Embedding of `_infer_info_bits_per_symbol` (dvbs2x.py, lines 81-89),
taking the `modulation` and `code_rate` fields of the cleaned dict. -/
def infer_info_bits_per_symbol (modulation code_rate : Option String) :
    Option ℝ :=
  match modulation_bits modulation, parse_code_rate code_rate with
  | some bits_per_symbol, some code_rate_val =>
    let info_bits := bits_per_symbol * (code_rate_val : ℝ)
    if info_bits ≤ 0 then none else some info_bits
  | _, _ => none

/-- Normalization of one table element inside `DvbS2xStrategy.__init__`
(dvbs2x.py, lines 121-134): an already-typed `ModcodEntry` is kept as is; a
dict is cleaned, coerced, and `info_bits_per_symbol` is inferred when the
stored value is falsy (absent or 0). -/
def normalizeEntry : ModcodEntry ⊕ RawModcodEntry → ModcodEntry
  | .inl e => e
  | .inr raw =>
    let info0 := raw.info_bits_per_symbol
    let needsInfer : Bool :=
      match info0 with
      | none => true
      | some v => decide (v = 0)
    let info1 : Option ℝ :=
      if needsInfer then
        match infer_info_bits_per_symbol (some raw.modulation)
            (some raw.code_rate) with
        | some inferred => some inferred
        | none => info0
      else info0
    { id := raw.id, modulation := raw.modulation, code_rate := raw.code_rate,
      required_cn0_dbhz := raw.required_cn0_dbhz,
      required_ebno_db := raw.required_ebno_db,
      info_bits_per_symbol := info1, rolloff := raw.rolloff,
      pilots := raw.pilots }

/-- The offending-entry test of `DvbS2xStrategy._validate_table`
(dvbs2x.py, lines 148-151): `info_bits_per_symbol is None or <= 0`. -/
def invalidInfoBits (e : ModcodEntry) : Bool :=
  match e.info_bits_per_symbol with
  | none => true
  | some v => decide (v ≤ 0)

/-- Embedding of `DvbS2xStrategy.__init__` with an explicit table
(dvbs2x.py, lines 111-136): normalize every element, then validate;
the `ValueError` raised for the first offending entry is modelled as
`Except.error` carrying that entry's id. -/
def mkDvbS2xStrategy (table : List (ModcodEntry ⊕ RawModcodEntry)) :
    Except String (List ModcodEntry) :=
  let normalized := table.map normalizeEntry
  match normalized.find? invalidInfoBits with
  | some e => .error e.id
  | none => .ok normalized

/-- The built-in default ModCod table of `DvbS2xStrategy.__init__`
(dvbs2x.py, lines 115-119), used when no table is supplied. -/
def defaultTable : List ModcodEntry :=
  [{ id := "qpsk-1/4", modulation := "QPSK", code_rate := "1/4",
     required_cn0_dbhz := some 65.0, info_bits_per_symbol := some 0.5 },
   { id := "qpsk-1/2", modulation := "QPSK", code_rate := "1/2",
     required_cn0_dbhz := some 70.0, info_bits_per_symbol := some 1.0 },
   { id := "8psk-3/4", modulation := "8PSK", code_rate := "3/4",
     required_cn0_dbhz := some 78.0, info_bits_per_symbol := some 2.25 }]

/-- Sort key of `DvbS2xStrategy._sorted_entries` (dvbs2x.py, lines
138-146): required C/N0 when present, else required Eb/N0, else
`float("inf")` (modelled as `⊤` in `WithTop ℝ`). -/
def threshold (e : ModcodEntry) : WithTop ℝ :=
  match e.required_cn0_dbhz with
  | some v => (v : WithTop ℝ)
  | none =>
    match e.required_ebno_db with
    | some v => (v : WithTop ℝ)
    | none => ⊤

/-- Comparison relation used by `_sorted_entries`. -/
def thresholdLE (a b : ModcodEntry) : Prop := threshold a ≤ threshold b

instance : DecidableRel thresholdLE := fun _ _ => Classical.dec _

instance : IsTotal ModcodEntry thresholdLE := ⟨fun _ _ => le_total _ _⟩

instance : IsTrans ModcodEntry thresholdLE := ⟨fun _ _ _ h1 h2 => le_trans h1 h2⟩

/-- Embedding of `DvbS2xStrategy._sorted_entries`: Python's stable `sorted`
by the threshold key; `List.insertionSort` with a `≤`-key relation is also
stable, so the two agree. -/
def sortedEntries (table : List ModcodEntry) : List ModcodEntry :=
  table.insertionSort thresholdLE

/-- The class attribute `default_rolloff` of `DvbS2xStrategy`. -/
def default_rolloff : ℝ := 0.2

/-- Embedding of `DvbS2xStrategy._resolve_rolloff` (dvbs2x.py, lines
153-157): explicit call argument, else entry value, else family default,
clamped below at 0. -/
def resolve_rolloff (e : ModcodEntry) (rolloff : Option ℝ) : ℝ :=
  let alpha : Option ℝ :=
    match rolloff with
    | some a => some a
    | none => e.rolloff
  max (alpha.getD default_rolloff) 0

/-- Embedding of `DvbS2xStrategy._info_bits_per_symbol` (dvbs2x.py, lines
159-162).  The source raises `ValueError` when the field is absent, which
cannot happen for a table accepted by `mkDvbS2xStrategy` (see
`invalidInfoBits`); the unreachable branch returns 0. -/
def info_bits_value (e : ModcodEntry) : ℝ :=
  e.info_bits_per_symbol.getD 0

/-- Embedding of `DvbS2xStrategy._effective_spectral_efficiency`
(dvbs2x.py, lines 164-167). -/
def effective_spectral_efficiency (e : ModcodEntry) (rolloff : Option ℝ) : ℝ :=
  info_bits_value e / (1 + resolve_rolloff e rolloff)

/-- Embedding of `DvbS2xStrategy._bitrate_bps` (dvbs2x.py, lines 169-173). -/
def bitrate_bps (e : ModcodEntry) (bandwidth_hz rolloff : Option ℝ) :
    Option ℝ :=
  match bandwidth_hz with
  | none => none
  | some bw => some (max (bw * effective_spectral_efficiency e rolloff) 1)

/-- Embedding of `DvbS2xStrategy._required_cn0` (dvbs2x.py, lines 175-178);
the bandwidth argument is unused in the source as well. -/
def required_cn0 (e : ModcodEntry) (_bandwidth_hz : Option ℝ) : Option ℝ :=
  e.required_cn0_dbhz

/-- One iteration of the `select_modcod` loop (dvbs2x.py, lines 186-202)
assigns `selected = entry` exactly when this predicate holds: with a
bandwidth, available Eb/N0 (C/N0 minus 10 log10 bitrate) meets the required
Eb/N0 derived from the C/N0 threshold (else the native Eb/N0 threshold, else
the entry is skipped); without a bandwidth, C/N0 meets the C/N0 threshold. -/
def entrySatisfied (cn0_dbhz : ℝ) (bandwidth_hz rolloff : Option ℝ)
    (e : ModcodEntry) : Prop :=
  match bandwidth_hz with
  | some bw =>
    let bitrate := max (bw * effective_spectral_efficiency e rolloff) 1
    let available_ebno := cn0_dbhz - 10 * Real.logb 10 bitrate
    match required_cn0 e (some bw) with
    | some rc => rc - 10 * Real.logb 10 bitrate ≤ available_ebno
    | none =>
      match e.required_ebno_db with
      | some re => re ≤ available_ebno
      | none => False
  | none =>
    match e.required_cn0_dbhz with
    | some rc => rc ≤ cn0_dbhz
    | none => False

instance (cn0 : ℝ) (bw ro : Option ℝ) (e : ModcodEntry) :
    Decidable (entrySatisfied cn0 bw ro e) := Classical.dec _

/-- Embedding of `DvbS2xStrategy.select_modcod` (dvbs2x.py, lines 180-203):
walk the entries in ascending threshold order, remember the last satisfied
one, fall back to the first sorted entry (`selected or entries[0]`). -/
def select_modcod (table : List ModcodEntry) (cn0_dbhz : ℝ)
    (bandwidth_hz rolloff : Option ℝ) : Option ModcodEntry :=
  let entries := sortedEntries table
  match entries with
  | [] => none
  | e0 :: _ =>
    let selected := entries.foldl
      (fun selected e =>
        if entrySatisfied cn0_dbhz bandwidth_hz rolloff e then some e
        else selected)
      none
    some (selected.getD e0)

/-- Embedding of `DvbS2xStrategy.select_modcod_with_margin` (dvbs2x.py,
lines 205-228).  Returns (entry, available Eb/N0, required Eb/N0, margin,
bitrate). -/
def select_modcod_with_margin (table : List ModcodEntry) (cn0_dbhz : ℝ)
    (bandwidth_hz rolloff : Option ℝ) :
    Option ModcodEntry × Option ℝ × Option ℝ × Option ℝ × Option ℝ :=
  match select_modcod table cn0_dbhz bandwidth_hz rolloff with
  | none => (none, none, none, none, none)
  | some entry =>
    let required_cn0_val := required_cn0 entry bandwidth_hz
    match bitrate_bps entry bandwidth_hz rolloff with
    | none => (some entry, none, required_cn0_val, none, none)
    | some bitrate =>
      let available_ebno := cn0_dbhz - 10 * Real.logb 10 bitrate
      let required_ebno : Option ℝ :=
        match required_cn0_val with
        | some rc => some (rc - 10 * Real.logb 10 bitrate)
        | none => entry.required_ebno_db
      match required_ebno with
      | none => (some entry, some available_ebno, none, none, some bitrate)
      | some re =>
        (some entry, some available_ebno, some re,
          some (available_ebno - re), some bitrate)

/-- A table every entry of which carries a positive
`info_bits_per_symbol` — exactly the tables accepted by construction. -/
def validTable (table : List ModcodEntry) : Prop :=
  ∀ e ∈ table, ∃ v, e.info_bits_per_symbol = some v ∧ 0 < v

namespace NrStrategy

/-- The class attribute `default_overhead` of `NrStrategy`
(src/backend/src/core/strategies/nr.py). -/
def default_overhead : ℝ := 0.14

/-- Embedding of `NrStrategy._resolve_overhead` (nr.py, lines 24-29):
explicit call argument, else entry value, else family default, clamped
into [0, 1]. -/
def resolve_overhead (e : ModcodEntry) (rolloff : Option ℝ) : ℝ :=
  let overhead : Option ℝ :=
    match rolloff with
    | some a => some a
    | none => e.rolloff
  max (min (overhead.getD default_overhead) 1) 0

/-- Embedding of `NrStrategy._effective_spectral_efficiency` (nr.py, lines
31-34): info bits per symbol times (1 - overhead). -/
def effective_spectral_efficiency (e : ModcodEntry) (rolloff : Option ℝ) :
    ℝ :=
  info_bits_value e * (1 - resolve_overhead e rolloff)

end NrStrategy

/-- Embedding of the schema `SweepPoint`
(src/backend/src/api/schemas/sweep.py). -/
structure SweepPoint where
  sweep_value : ℝ
  combined_link_margin_db : Option ℝ := none
  combined_cn_db : Option ℝ := none
  combined_cn0_dbhz : Option ℝ := none
  uplink_cn_db : Option ℝ := none
  uplink_rain_loss_db : Option ℝ := none
  uplink_link_margin_db : Option ℝ := none
  downlink_cn_db : Option ℝ := none
  downlink_rain_loss_db : Option ℝ := none
  downlink_link_margin_db : Option ℝ := none
  modcod_id : Option String := none
  modcod_label : Option String := none
  viable : Bool := true
  warnings : List String := []

/-- The pair-scanning loop of `compute_crossover`
(src/backend/src/services/sweep_service.py, lines 90-102): walk consecutive
pairs, skip pairs with a missing margin, and on the first strictly negative
product of (margin - threshold) return the linear interpolation. -/
def crossoverScan (threshold_db : ℝ) : List SweepPoint → Option ℝ
  | p1 :: p2 :: rest =>
    match p1.combined_link_margin_db, p2.combined_link_margin_db with
    | some m1, some m2 =>
      if (m1 - threshold_db) * (m2 - threshold_db) < 0 then
        some (p1.sweep_value +
          (threshold_db - m1) / (m2 - m1) * (p2.sweep_value - p1.sweep_value))
      else crossoverScan threshold_db (p2 :: rest)
    | _, _ => crossoverScan threshold_db (p2 :: rest)
  | _ => none

/-- Embedding of `compute_crossover` (sweep_service.py, lines 82-102). -/
def compute_crossover (points : List SweepPoint) (threshold_db : Option ℝ) :
    Option ℝ :=
  match threshold_db with
  | none => none
  | some t => crossoverScan t points

/-- A consecutive pair of sweep points with no strict sign change of
(margin - threshold): either a margin is missing or the product is
non-negative. -/
def pairNoCross (t : ℝ) (p q : SweepPoint) : Prop :=
  ∀ m1 m2, p.combined_link_margin_db = some m1 →
    q.combined_link_margin_db = some m2 → 0 ≤ (m1 - t) * (m2 - t)

/-- The crossover example of the spec: margins [10, 3, -4] at swept values
[0, 50, 100]. -/
def examplePoints : List SweepPoint :=
  [{ sweep_value := 0, combined_link_margin_db := some 10 },
   { sweep_value := 50, combined_link_margin_db := some 3 },
   { sweep_value := 100, combined_link_margin_db := some (-4) }]

/-- Python `a or b` on optional floats: `b` unless `a` is present and
nonzero (0.0 is falsy). -/
def pyOr (a b : Option ℝ) : Option ℝ :=
  match a with
  | some x => if x = 0 then b else some x
  | none => b

/-- Python `a or d` on an optional float with a scalar default. -/
def pyOrD (a : Option ℝ) (d : ℝ) : ℝ :=
  match a with
  | some x => if x = 0 then d else x
  | none => d

/-- The `detail` strings of the service's 400 HTTPExceptions raised before
and during request building (calculation_service.py), abstracted to
constructors; the f-string numeric payload is carried as a field. -/
inductive ErrorDetail
  | bandwidthRequiredTransparent
  | commonBandwidthTransparent
  | perLinkBandwidthRegenerative
  | satLongitudeRequired
  | runtimeFieldsRequired
  | belowHorizon (direction : String) (elevation_deg : ℝ)
deriving DecidableEq

/-- An HTTPException: status code and detail. -/
structure CalcError where
  status_code : ℕ
  detail : ErrorDetail

/-- The `TransponderType` enum (api/schemas/calculation.py). -/
inductive TransponderType
  | TRANSPARENT
  | REGENERATIVE
deriving DecidableEq

/-- The truthy-and-differing test of the transparent bandwidth loop:
`direction_data.get("bandwidth_hz") and direction_data.get("bandwidth_hz")
!= shared_bandwidth`. -/
def bwConflicts (dir_bw : Option ℝ) (shared : ℝ) : Prop :=
  match dir_bw with
  | some b => b ≠ 0 ∧ b ≠ shared
  | none => False

instance (d : Option ℝ) (s : ℝ) : Decidable (bwConflicts d s) :=
  Classical.dec _

/-- Embedding of the bandwidth rule of `CalculationService.calculate`
(calculation_service.py, lines 128-141): Transparent resolves one shared
bandwidth (runtime value, else uplink, else downlink, skipping falsy
values), rejects a differing truthy per-direction value, and writes the
shared value into both direction dicts; Regenerative rejects any supplied
shared value. -/
def resolveBandwidth (transponder_type : TransponderType)
    (runtime_bandwidth : Option ℝ)
    (uplink_data downlink_data : DirectionData) :
    Except CalcError (Option ℝ × DirectionData × DirectionData) :=
  match transponder_type with
  | .TRANSPARENT =>
    match pyOr (pyOr runtime_bandwidth uplink_data.bandwidth_hz)
        downlink_data.bandwidth_hz with
    | none => .error ⟨400, .bandwidthRequiredTransparent⟩
    | some shared =>
      if bwConflicts uplink_data.bandwidth_hz shared then
        .error ⟨400, .commonBandwidthTransparent⟩
      else if bwConflicts downlink_data.bandwidth_hz shared then
        .error ⟨400, .commonBandwidthTransparent⟩
      else
        .ok (some shared, { uplink_data with bandwidth_hz := some shared },
          { downlink_data with bandwidth_hz := some shared })
  | .REGENERATIVE =>
    match runtime_bandwidth with
    | some _ => .error ⟨400, .perLinkBandwidthRegenerative⟩
    | none => .ok (none, uplink_data, downlink_data)

/-- Embedding of the satellite-longitude resolution
(calculation_service.py, lines 143-145): runtime value (falsy skipped),
else the satellite asset's longitude; missing is a 400. -/
def resolveSatLongitude (runtime_sat_lon asset_sat_lon : Option ℝ) :
    Except CalcError ℝ :=
  match pyOr runtime_sat_lon asset_sat_lon with
  | none => .error ⟨400, .satLongitudeRequired⟩
  | some lon => .ok lon

/-- Embedding of the inner `_compute_elevation`
(calculation_service.py, lines 183-200): GEO elevation from the spherical
central-angle approximation. -/
def compute_elevation (sat_lon_deg ground_lat_deg ground_lon_deg
    ground_alt_m : ℝ) : ℝ :=
  let re_km := 6378.0 + ground_alt_m / 1000.0
  let rs_km : ℝ := 42164.0
  let lat_rad := ground_lat_deg * (π / 180)
  let delta_lon_rad := (sat_lon_deg - ground_lon_deg) * (π / 180)
  let cos_psi := Real.cos lat_rad * Real.cos delta_lon_rad
  let cos_psi := max (-1) (min 1 cos_psi)
  let psi := Real.arccos cos_psi
  let sin_psi := Real.sin psi
  if sin_psi = 0 then 90
  else Real.arctan ((Real.cos psi - re_km / rs_km) / sin_psi) * (180 / π)

/-- Embedding of the dataclass `LinkDirectionParameters`
(src/backend/src/core/models/common.py). -/
structure LinkDirectionParameters where
  frequency_hz : ℝ
  bandwidth_hz : ℝ
  elevation_deg : ℝ
  rain_rate_mm_per_hr : ℝ
  temperature_k : ℝ
  ground_lat_deg : ℝ
  ground_lon_deg : ℝ
  ground_alt_m : ℝ := 0
  pressure_hpa : Option ℝ := none
  water_vapor_density : Option ℝ := none

/-- Embedding of the dataclass `RuntimeParameters` (models/common.py). -/
structure RuntimeParameters where
  sat_longitude_deg : ℝ
  uplink : LinkDirectionParameters
  downlink : LinkDirectionParameters
  rolloff : Option ℝ := none

/-- Embedding of the inner `_build_direction`
(calculation_service.py, lines 202-237): validate required fields, default
the temperature per direction (falsy-aware) and the altitude, compute the
elevation when absent, reject sub-horizon elevation. -/
def build_direction (sat_longitude : ℝ) (primary : DirectionData)
    (direction : String) : Except CalcError LinkDirectionParameters :=
  let rain := primary.rain_rate_mm_per_hr.getD 0
  let temp_default : ℝ := if direction = "uplink" then 290 else 120
  let temp := pyOrD primary.temperature_k temp_default
  let station_alt := pyOrD primary.ground_alt_m 0
  match primary.frequency_hz, primary.bandwidth_hz, primary.ground_lat_deg,
      primary.ground_lon_deg with
  | some freq, some bw, some station_lat, some station_lon =>
    let elev :=
      match primary.elevation_deg with
      | some e => e
      | none =>
        compute_elevation sat_longitude station_lat station_lon station_alt
    if elev < 0 then .error ⟨400, .belowHorizon direction elev⟩
    else
      .ok { frequency_hz := freq
            bandwidth_hz := bw
            elevation_deg := elev
            rain_rate_mm_per_hr := rain
            temperature_k := temp
            ground_lat_deg := station_lat
            ground_lon_deg := station_lon
            ground_alt_m := station_alt
            pressure_hpa := primary.pressure_hpa
            water_vapor_density := primary.water_vapor_density }
  | _, _, _, _ => .error ⟨400, .runtimeFieldsRequired⟩

/-- The external ITU-R attenuation models consumed by propagation.py
(`itu618.rain_attenuation`, `itu676.gaseous_attenuation_slant_path`,
`itu840.cloud_attenuation`): abstract provider functions, argument order as
at the call sites. -/
structure Providers where
  rain_attenuation : ℝ → ℝ → ℝ → ℝ → ℝ → ℝ → ℝ
  gaseous_attenuation : ℝ → ℝ → ℝ → ℝ → ℝ → ℝ
  cloud_attenuation : ℝ → ℝ → ℝ → ℝ → ℝ → ℝ

/-- Constants of propagation.py. -/
def GEO_ALTITUDE_KM : ℝ := 35786

def EARTH_RADIUS_KM : ℝ := 6371

def KB : ℝ := -228.6

def DEFAULT_WATER_VAPOR_DENSITY : ℝ := 7.5

def DEFAULT_PRESSURE_HPA : ℝ := 1013.25

def SPEED_OF_LIGHT : ℝ := 299792458

def FSPL_CONST_4PI_OVER_C_DB : ℝ :=
  20 * Real.logb 10 (4 * π / SPEED_OF_LIGHT)

/-- Embedding of the spherical fallback branch of `estimate_slant_range_km`
(propagation.py, lines 35-68); the Skyfield fast path is an optional
external dependency outside this core. -/
def estimate_slant_range_km (ground_lat_deg ground_lon_deg ground_alt_m
    sat_longitude_deg sat_latitude_deg sat_altitude_km : ℝ) : ℝ :=
  let lat_g_rad := ground_lat_deg * (π / 180)
  let lat_s_rad := sat_latitude_deg * (π / 180)
  let delta_lon_rad := (sat_longitude_deg - ground_lon_deg) * (π / 180)
  let cos_central := Real.sin lat_g_rad * Real.sin lat_s_rad +
    Real.cos lat_g_rad * Real.cos lat_s_rad * Real.cos delta_lon_rad
  let central_angle := Real.arccos (max (-1) (min 1 cos_central))
  let r_e := EARTH_RADIUS_KM + ground_alt_m / 1000
  let r_s := EARTH_RADIUS_KM + sat_altitude_km
  Real.sqrt (r_e ^ 2 + r_s ^ 2 - 2 * r_e * r_s * Real.cos central_angle)

/-- Embedding of `free_space_path_loss_db` (propagation.py, lines 71-77). -/
def free_space_path_loss_db (frequency_hz distance_km : ℝ) : ℝ :=
  let d_m := max (distance_km * 1000) 1e-3
  20 * Real.logb 10 d_m + 20 * Real.logb 10 frequency_hz +
    FSPL_CONST_4PI_OVER_C_DB

/-- Embedding of `rain_loss_db` (propagation.py, lines 80-102): zero at
non-positive rain rates, else the ITU-R P.618 provider. -/
def rain_loss_db (P : Providers) (rain_rate_mm_per_hr elevation_deg
    ground_lat_deg ground_lon_deg ground_alt_m frequency_hz : ℝ) : ℝ :=
  if rain_rate_mm_per_hr ≤ 0 then 0
  else
    P.rain_attenuation ground_lat_deg ground_lon_deg (frequency_hz / 1e9)
      elevation_deg (ground_alt_m / 1000) rain_rate_mm_per_hr

/-- Embedding of `gas_loss_db` (propagation.py, lines 105-124). -/
def gas_loss_db (P : Providers) (frequency_hz elevation_deg temperature_k
    water_vapor_density pressure_hpa : ℝ) : ℝ :=
  P.gaseous_attenuation (frequency_hz / 1e9) elevation_deg
    water_vapor_density pressure_hpa temperature_k

/-- Embedding of `cloud_loss_db` (propagation.py, lines 127-145). -/
def cloud_loss_db (P : Providers) (ground_lat_deg ground_lon_deg
    elevation_deg frequency_hz availability_p : ℝ) : ℝ :=
  P.cloud_attenuation ground_lat_deg ground_lon_deg elevation_deg
    (frequency_hz / 1e9) availability_p

/-- Embedding of `pointing_loss_db` (propagation.py, lines 148-149). -/
def pointing_loss_db (elevation_deg : ℝ) : ℝ :=
  if 20 < elevation_deg then 0.1 else 0.5

/-- Embedding of the dataclass `LinkBudgetInputs` (propagation.py). -/
structure LinkBudgetInputs where
  frequency_hz : ℝ
  bandwidth_hz : ℝ
  elevation_deg : ℝ
  rain_rate_mm_per_hr : ℝ
  tx_eirp_dbw : ℝ
  rx_gt_db_per_k : ℝ
  ground_lat_deg : ℝ
  ground_lon_deg : ℝ
  ground_alt_m : ℝ
  sat_longitude_deg : ℝ
  temperature_k : ℝ
  water_vapor_density : ℝ := DEFAULT_WATER_VAPOR_DENSITY
  pressure_hpa : ℝ := DEFAULT_PRESSURE_HPA
  sat_latitude_deg : ℝ := 0
  sat_altitude_km : ℝ := GEO_ALTITUDE_KM
  precomputed_slant_range_km : Option ℝ := none

/-- The dict returned by `compute_link_budget`. -/
structure LinkBudgetStats where
  fspl_db : ℝ
  rain_loss_db : ℝ
  gas_loss_db : ℝ
  cloud_loss_db : ℝ
  atm_loss_db : ℝ
  antenna_pointing_loss_db : ℝ
  gt_db_per_k : ℝ
  cn0_dbhz : ℝ
  cn_db : ℝ
  link_margin_db : ℝ

/-- Embedding of `compute_link_budget` (propagation.py, lines 172-230).
The trailing `math.isfinite` checks cannot fail in ideal real semantics, so
the `ValueError` branch is unreachable here. -/
def compute_link_budget (P : Providers) (inputs : LinkBudgetInputs) :
    LinkBudgetStats :=
  let slant_range_km :=
    match inputs.precomputed_slant_range_km with
    | some r => r
    | none =>
      estimate_slant_range_km inputs.ground_lat_deg inputs.ground_lon_deg
        inputs.ground_alt_m inputs.sat_longitude_deg inputs.sat_latitude_deg
        inputs.sat_altitude_km
  let fspl := free_space_path_loss_db inputs.frequency_hz slant_range_km
  let rain := rain_loss_db P inputs.rain_rate_mm_per_hr inputs.elevation_deg
    inputs.ground_lat_deg inputs.ground_lon_deg inputs.ground_alt_m
    inputs.frequency_hz
  let gas := gas_loss_db P inputs.frequency_hz inputs.elevation_deg
    inputs.temperature_k inputs.water_vapor_density inputs.pressure_hpa
  let cloud := cloud_loss_db P inputs.ground_lat_deg inputs.ground_lon_deg
    inputs.elevation_deg inputs.frequency_hz 0.01
  let pointing := pointing_loss_db inputs.elevation_deg
  let atm_loss := fspl + rain + gas + cloud + pointing
  let cn0 := inputs.tx_eirp_dbw + inputs.rx_gt_db_per_k - atm_loss - KB
  let cn := cn0 - 10 * Real.logb 10 inputs.bandwidth_hz
  { fspl_db := fspl, rain_loss_db := rain, gas_loss_db := gas,
    cloud_loss_db := cloud, atm_loss_db := atm_loss,
    antenna_pointing_loss_db := pointing,
    gt_db_per_k := inputs.rx_gt_db_per_k, cn0_dbhz := cn0, cn_db := cn,
    link_margin_db := cn }

/-- Embedding of the dataclass `CommunicationContext`
(core/strategies/communication.py) with its resolved per-direction EIRP and
G/T values — the service fills these from assets and overrides before
calculating. -/
structure CommunicationContext where
  uplink_tx_eirp_dbw : ℝ := 50
  uplink_rx_gt_db_per_k : ℝ := 20
  downlink_tx_eirp_dbw : ℝ := 50
  downlink_rx_gt_db_per_k : ℝ := 25

/-- Embedding of `TransparentCommunicationStrategy.calculate`
(communication.py, lines 28-72). -/
def strategy_calculate (P : Providers) (ctx : CommunicationContext)
    (runtime : RuntimeParameters) (direction : String) : CalculationResult :=
  let is_uplink := direction = "uplink"
  let params := if is_uplink then runtime.uplink else runtime.downlink
  let tx_eirp :=
    if is_uplink then ctx.uplink_tx_eirp_dbw else ctx.downlink_tx_eirp_dbw
  let rx_gt :=
    if is_uplink then ctx.uplink_rx_gt_db_per_k
    else ctx.downlink_rx_gt_db_per_k
  let inputs : LinkBudgetInputs :=
    { frequency_hz := params.frequency_hz,
      bandwidth_hz := params.bandwidth_hz,
      elevation_deg := params.elevation_deg,
      rain_rate_mm_per_hr := params.rain_rate_mm_per_hr,
      tx_eirp_dbw := tx_eirp, rx_gt_db_per_k := rx_gt,
      ground_lat_deg := params.ground_lat_deg,
      ground_lon_deg := params.ground_lon_deg,
      ground_alt_m := params.ground_alt_m,
      sat_longitude_deg := runtime.sat_longitude_deg,
      temperature_k := params.temperature_k,
      water_vapor_density :=
        params.water_vapor_density.getD DEFAULT_WATER_VAPOR_DENSITY,
      pressure_hpa := params.pressure_hpa.getD DEFAULT_PRESSURE_HPA }
  let stats := compute_link_budget P inputs
  { direction := direction, modcod_selected := none,
    eirp_dbw := some inputs.tx_eirp_dbw,
    bandwidth_hz := some params.bandwidth_hz, fspl_db := stats.fspl_db,
    rain_loss_db := stats.rain_loss_db, gas_loss_db := stats.gas_loss_db,
    cloud_loss_db := stats.cloud_loss_db, atm_loss_db := stats.atm_loss_db,
    antenna_pointing_loss_db := stats.antenna_pointing_loss_db,
    gt_db_per_k := stats.gt_db_per_k, cn_db := stats.cn_db,
    cn0_dbhz := stats.cn0_dbhz, link_margin_db := stats.link_margin_db }

/-- The dict built by `_selected_modcod_entry_from_table`
(calculation_service.py, lines 438-475). -/
structure SelectedModcodInfo where
  id : String
  modulation : String
  code_rate : String
  required_ebno_db : Option ℝ
  required_cn0_dbhz : Option ℝ
  info_bits_per_symbol : Option ℝ
  effective_spectral_efficiency : Option ℝ
  rolloff : Option ℝ
  pilots : Option Bool

/-- Embedding of `_selected_modcod_entry_from_table` over the effective
entry list (the fetched table's entries, else the waveform's own table —
both resolve to the same normalized list in this core): find the entry with
the given id and build the info payload.  The
`effective_spectral_efficiency` call raises (and the `except` yields None)
exactly when the entry misses `info_bits_per_symbol`. -/
def selected_modcod_entry_from_table (modcod_id : Option String)
    (table_entries : List ModcodEntry) (rolloff_value : Option ℝ) :
    Option SelectedModcodInfo :=
  match modcod_id with
  | none => none
  | some mid =>
    match table_entries.find? (fun e => e.id == mid) with
    | none => none
    | some entry =>
      some { id := entry.id
             modulation := entry.modulation
             code_rate := entry.code_rate
             required_ebno_db := entry.required_ebno_db
             required_cn0_dbhz := entry.required_cn0_dbhz
             info_bits_per_symbol := entry.info_bits_per_symbol
             effective_spectral_efficiency :=
               match entry.info_bits_per_symbol with
               | some _ =>
                 some (effective_spectral_efficiency entry rolloff_value)
               | none => none
             rolloff := entry.rolloff
             pilots := entry.pilots }

/-- One entry of the `modcod_selected` response payload: the full info dict
when the table lookup succeeds, else the `{"id": ...}` fallback. -/
inductive ModcodPayloadEntry
  | full (info : SelectedModcodInfo)
  | idOnly (id : String)

/-- The `modcod_selected` payload: one shared entry for Transparent, one
optional entry per direction for Regenerative. -/
inductive ModcodSelectedPayload
  | single (entry : ModcodPayloadEntry)
  | perDirection (uplink downlink : Option ModcodPayloadEntry)

/-- The `combined` results dict of a Transparent response
(calculation_service.py, lines 515-526). -/
structure CombinedResults where
  cn_db : ℝ
  cn0_dbhz : ℝ
  cni_db : ℝ
  cni0_dbhz : ℝ
  c_im_db : Option ℝ
  link_margin_db : Option ℝ
  clean_link_margin_db : Option ℝ := none
  clean_cn_db : Option ℝ := none

/-- The response fields produced by `CalculationService.calculate`
(calculation_service.py, lines 590 and 693-705) that carry computation
results. -/
structure CalcResponse where
  uplink : CalculationResult
  downlink : CalculationResult
  combined : Option CombinedResults
  combined_link_margin_db : Option ℝ
  combined_cn_db : Option ℝ
  combined_cn0_dbhz : Option ℝ
  modcod_selected : Option ModcodSelectedPayload

/-- Embedding of the inner `_apply_modcod` of the Regenerative branch
(calculation_service.py, lines 537-555): select against the direction's own
C/N0 and bandwidth, record the selected id, and set the margin from the
selected entry's thresholds (the updates-dict semantics is modelled by
keeping the original field when no update applies). -/
def apply_modcod (result : CalculationResult)
    (waveform_table : List ModcodEntry) (rolloff : Option ℝ) :
    CalculationResult × Option ModcodEntry :=
  let sel := select_modcod_with_margin waveform_table result.cn0_dbhz
    result.bandwidth_hz rolloff
  let entry := sel.1
  let required_ebno := sel.2.2.1
  let margin := sel.2.2.2.1
  let bitrate_used := sel.2.2.2.2
  let modcod_upd : Option String :=
    match entry with
    | some e => some e.id
    | none => result.modcod_selected
  let margin_upd : ℝ :=
    match required_ebno, bitrate_used with
    | some re, some br =>
      if br ≠ 0 then result.cn0_dbhz - 10 * Real.logb 10 br - re
      else
        match margin with
        | some m => m
        | none => result.link_margin_db
    | _, _ =>
      match margin with
      | some m => m
      | none => result.link_margin_db
  ({ result with
      modcod_selected := modcod_upd
      link_margin_db := margin_upd }, entry)

/-- Embedding of the Transparent combination branch of
`CalculationService.calculate` (calculation_service.py, lines 477-535)
together with the response assembly (lines 693-705): combine per-direction
C/N by the reciprocal sum, recompute combined C/N0 and C/(N+I), select one
ModCod against the combined C/N0, and recompute both directions' margins
against the globally selected entry. -/
def transparentCombine (common_table : List ModcodEntry)
    (rolloff : Option ℝ) (uplink downlink : CalculationResult)
    (ul_clean_cn dl_clean_cn : ℝ) : CalcResponse :=
  -- `combined_bandwidth = downlink.bandwidth_hz or uplink.bandwidth_hz`:
  -- a missing value would raise TypeError in log10 below; the transparent
  -- bandwidth rule guarantees a nonzero value, so getD 0 is unreachable.
  let combined_bandwidth :=
    (pyOr downlink.bandwidth_hz uplink.bandwidth_hz).getD 0
  let combined_cn_db := combine_cn_db uplink.cn_db downlink.cn_db
  let combined_cn0_dbhz :=
    combined_cn_db + 10 * Real.logb 10 combined_bandwidth
  let combined_cni_db := combine_cn_db (uplink.cni_db.getD uplink.cn_db)
    (downlink.cni_db.getD downlink.cn_db)
  let combined_cni0_dbhz :=
    combined_cni_db + 10 * Real.logb 10 combined_bandwidth
  let sel := select_modcod_with_margin common_table combined_cn0_dbhz
    (some combined_bandwidth) rolloff
  let selected_entry := sel.1
  let required_ebno := sel.2.2.1
  let margin := sel.2.2.2.1
  let bitrate_used := sel.2.2.2.2
  let selected_modcod : Option String := selected_entry.map (·.id)
  let total_link_margin := margin
  let modcod_upd : CalculationResult → Option String := fun r =>
    match selected_modcod with
    | some sid => if sid ≠ "" then some sid else r.modcod_selected
    | none => r.modcod_selected
  let margin_upd : CalculationResult → ℝ := fun r =>
    match required_ebno, bitrate_used with
    | some re, some br =>
      if br ≠ 0 then r.cn0_dbhz - 10 * Real.logb 10 br - re
      else
        match margin with
        | some m => m
        | none => r.link_margin_db
    | _, _ =>
      match margin with
      | some m => m
      | none => r.link_margin_db
  let uplink2 := { uplink with
    modcod_selected := modcod_upd uplink
    link_margin_db := margin_upd uplink }
  let downlink2 := { downlink with
    modcod_selected := modcod_upd downlink
    link_margin_db := margin_upd downlink }
  let combined_results : CombinedResults :=
    { cn_db := combined_cn_db, cn0_dbhz := combined_cn0_dbhz,
      cni_db := combined_cni_db, cni0_dbhz := combined_cni0_dbhz,
      c_im_db := downlink.c_im_db, link_margin_db := total_link_margin,
      clean_link_margin_db :=
        match total_link_margin with
        | some m =>
          some (m + (combine_cn_db ul_clean_cn dl_clean_cn - combined_cn_db))
        | none => none,
      clean_cn_db :=
        match total_link_margin with
        | some _ => some (combine_cn_db ul_clean_cn dl_clean_cn)
        | none => none }
  let modcod_selection_payload : Option ModcodSelectedPayload :=
    match selected_modcod with
    | some sid =>
      if sid ≠ "" then
        some (.single
          (match selected_modcod_entry_from_table (some sid) common_table
              rolloff with
           | some info => .full info
           | none => .idOnly sid))
      else none
    | none => none
  { uplink := uplink2, downlink := downlink2,
    combined := some combined_results,
    combined_link_margin_db := total_link_margin,
    combined_cn_db := some combined_cn_db,
    combined_cn0_dbhz := some combined_cn0_dbhz,
    modcod_selected := modcod_selection_payload }

/-- Embedding of the Regenerative combination branch
(calculation_service.py, lines 536-588) with the response assembly:
independent per-direction selection, clean-margin bookkeeping, and the
system margin as the minimum of the two per-direction margins
(`link_margin_db` is a non-optional dataclass field, so the
`is not None` filters keep both values). -/
def regenerativeCombine (uplink_table downlink_table : List ModcodEntry)
    (rolloff : Option ℝ) (uplink downlink : CalculationResult)
    (ul_clean_cn dl_clean_cn : ℝ) : CalcResponse :=
  let uplink1 := (apply_modcod uplink uplink_table rolloff).1
  let downlink1 := (apply_modcod downlink downlink_table rolloff).1
  let uplink2 := { uplink1 with
    clean_link_margin_db :=
      some (uplink1.link_margin_db + (ul_clean_cn - uplink1.cn_db))
    clean_cn_db := some ul_clean_cn }
  let downlink2 := { downlink1 with
    clean_link_margin_db :=
      some (downlink1.link_margin_db + (dl_clean_cn - downlink1.cn_db))
    clean_cn_db := some dl_clean_cn }
  let total_link_margin :=
    some (min uplink2.link_margin_db downlink2.link_margin_db)
  let payload_for : Option String → List ModcodEntry →
      Option ModcodPayloadEntry := fun sel table =>
    match selected_modcod_entry_from_table sel table rolloff with
    | some info => some (.full info)
    | none =>
      match sel with
      | some sid => if sid ≠ "" then some (.idOnly sid) else none
      | none => none
  { uplink := uplink2, downlink := downlink2, combined := none,
    combined_link_margin_db := total_link_margin,
    combined_cn_db := none, combined_cn0_dbhz := none,
    modcod_selected := some (.perDirection
      (payload_for uplink2.modcod_selected uplink_table)
      (payload_for downlink2.modcod_selected downlink_table)) }

/-- The computation-relevant inputs of `CalculationService.calculate`:
repository lookups, asset/override resolution (EIRP and G/T land in
`context`), 404 paths and snapshot assembly are data plumbing outside this
core; the ModCod tables arrive already normalized and validated by
construction (`mkDvbS2xStrategy`), defaulting to the built-in table exactly
when the service falls back to `DvbS2xStrategy()`. -/
structure CalcRequest where
  transponder_type : TransponderType
  runtime_bandwidth_hz : Option ℝ := none
  runtime_sat_longitude_deg : Option ℝ := none
  rolloff : Option ℝ := none
  uplink : DirectionData := {}
  downlink : DirectionData := {}
  intermodulation : Option IntermodBlock := none
  asset_sat_longitude_deg : Option ℝ := none
  common_table : List ModcodEntry := defaultTable
  uplink_table : List ModcodEntry := defaultTable
  downlink_table : List ModcodEntry := defaultTable
  context : CommunicationContext := {}

/-- The runtime dataclass built in `CalculationService.calculate`
(calculation_service.py, lines 297-302). -/
def pipelineRuntime (req : CalcRequest) (sat_longitude : ℝ)
    (uplink_params downlink_params : LinkDirectionParameters) :
    RuntimeParameters :=
  { sat_longitude_deg := sat_longitude, uplink := uplink_params,
    downlink := downlink_params, rolloff := req.rolloff }

/-- One direction of the computation stage (calculation_service.py, lines
303-399): strategy calculation, bandwidth fallback chain, interference
inputs, impairment application, and the clean-C/N record; uplink passes
`apply_intermod = False`, downlink passes the estimate's applied flag. -/
def impairedDirection (P : Providers) (req : CalcRequest)
    (shared_bandwidth : Option ℝ) (direction_data : DirectionData)
    (runtime : RuntimeParameters) (direction : String)
    (apply_intermod : Bool) : CalculationResult :=
  let r0 := strategy_calculate P req.context runtime direction
  let dir_bandwidth :=
    pyOr (pyOr r0.bandwidth_hz direction_data.bandwidth_hz)
      shared_bandwidth
  let di := CalculationService.interference_inputs direction_data
  let im := CalculationService.estimate_c_im req.intermodulation
  let r1 := CalculationService.apply_impairments r0 dir_bandwidth di.1
    di.2.1 di.2.2 apply_intermod im.1
  { r1 with clean_cn_db := some r0.cn_db }

/-- The computation stage of `CalculationService.calculate` after request
validation succeeds (calculation_service.py, lines 297-588): per-direction
link budgets, clean-C/N capture, impairment application, and the
per-transponder-type combination. -/
def computeAndCombine (P : Providers) (req : CalcRequest)
    (shared_bandwidth : Option ℝ)
    (uplink_data downlink_data : DirectionData) (sat_longitude : ℝ)
    (uplink_params downlink_params : LinkDirectionParameters) :
    CalcResponse :=
  let runtime := pipelineRuntime req sat_longitude uplink_params
    downlink_params
  let ul_clean_cn := (strategy_calculate P req.context runtime "uplink").cn_db
  let dl_clean_cn :=
    (strategy_calculate P req.context runtime "downlink").cn_db
  let uplink2 := impairedDirection P req shared_bandwidth uplink_data
    runtime "uplink" false
  let downlink2 := impairedDirection P req shared_bandwidth downlink_data
    runtime "downlink"
    (CalculationService.estimate_c_im req.intermodulation).2
  match req.transponder_type with
  | .TRANSPARENT =>
    transparentCombine req.common_table req.rolloff uplink2 downlink2
      ul_clean_cn dl_clean_cn
  | .REGENERATIVE =>
    regenerativeCombine req.uplink_table req.downlink_table req.rolloff
      uplink2 downlink2 ul_clean_cn dl_clean_cn

/-- Embedding of the computational core of `CalculationService.calculate`
(calculation_service.py, lines 123-588 and 693-705): bandwidth rule,
satellite-longitude resolution, per-direction parameter building with the
elevation checks, then the computation stage. -/
def calculateCore (P : Providers) (req : CalcRequest) :
    Except CalcError CalcResponse :=
  match resolveBandwidth req.transponder_type req.runtime_bandwidth_hz
      req.uplink req.downlink with
  | .error e => .error e
  | .ok (shared_bandwidth, uplink_data, downlink_data) =>
    match resolveSatLongitude req.runtime_sat_longitude_deg
        req.asset_sat_longitude_deg with
    | .error e => .error e
    | .ok sat_longitude =>
      match build_direction sat_longitude uplink_data "uplink" with
      | .error e => .error e
      | .ok uplink_params =>
        match build_direction sat_longitude downlink_data "downlink" with
        | .error e => .error e
        | .ok downlink_params =>
          .ok (computeAndCombine P req shared_bandwidth uplink_data
            downlink_data sat_longitude uplink_params downlink_params)

/-- The interference contribution of the degraded-C/N sum: `i_over_c` when
positive, else 0 (matching `interference_term` in `apply_impairments`). -/
def interferenceTerm (i_over_c : ℝ) : ℝ :=
  if 0 < i_over_c then i_over_c else 0

/-- The intermodulation contribution actually used by `apply_impairments`:
the inverse linear C/IM ratio exactly when application is requested and the
C/IM value is present and nonzero (Python float truthiness). -/
def intermodTerm (apply_intermod : Bool) (c_im_db_value : Option ℝ) : ℝ :=
  match c_im_db_value with
  | some v => if apply_intermod = true ∧ v ≠ 0 then 1 / (10 : ℝ) ^ (v / 10) else 0
  | none => 0

/-- Degraded C/N as the claim words it: reciprocal sum of thermal C/N, the
interference C/I when present, and the intermodulation C/IM whenever the
estimate reported applied = true and the caller requested application
(with no exception for C/IM = 0). -/
def claimDegradedCn (clean_cn : ℝ) (i_over_c : ℝ)
    (intermod_applied apply_intermod : Bool) (c_im_db : Option ℝ) : ℝ :=
  let thermal := (10 : ℝ) ^ (-clean_cn / 10)
  let interf := if 0 < i_over_c then i_over_c else 0
  let interm : ℝ :=
    if apply_intermod = true ∧ intermod_applied = true then
      match c_im_db with
      | some v => (10 : ℝ) ^ (-v / 10)
      | none => 0
    else 0
  10 * Real.logb 10 (1 / (thermal + interf + interm))

/-- A clean direction result with C/N = 0 dB in a 1 Hz bandwidth, input of
the C4 counterexample. -/
def cleanResult : CalculationResult :=
  { direction := "downlink", fspl_db := 0, rain_loss_db := 0,
    gas_loss_db := 0, cloud_loss_db := 0, atm_loss_db := 0,
    antenna_pointing_loss_db := 0, gt_db_per_k := 0, cn_db := 0,
    cn0_dbhz := 0, link_margin_db := 5, bandwidth_hz := some 1 }

/-- A clean direction result with C/N = 20 dB in a 1 Hz bandwidth, input of
the C4 numeric example. -/
def cn20Result : CalculationResult :=
  { direction := "downlink", fspl_db := 0, rain_loss_db := 0,
    gas_loss_db := 0, cloud_loss_db := 0, atm_loss_db := 0,
    antenna_pointing_loss_db := 0, gt_db_per_k := 0, cn_db := 20,
    cn0_dbhz := 20, link_margin_db := 5, bandwidth_hz := some 1 }

/-- Concrete table entry used to witness the selection theorem. -/
def witnessEntry : ModcodEntry :=
  { id := "qpsk-1/2", modulation := "QPSK", code_rate := "1/2",
    required_cn0_dbhz := some 70, info_bits_per_symbol := some 1 }

/-- Concrete entry lacking both thresholds but with positive
info_bits_per_symbol (counterexample input for the construction-time
threshold check). -/
def thresholdlessEntry : ModcodEntry :=
  { id := "no-thresholds", modulation := "QPSK", code_rate := "1/2",
    info_bits_per_symbol := some 1 }

/-- Concrete raw dict entry whose inferred info_bits_per_symbol is
non-positive (code rate 0/2), exercising the inference path. -/
def zeroRateRawEntry : RawModcodEntry :=
  { id := "zero-rate", modulation := "QPSK", code_rate := "0/2" }

/-- Concrete entry used to witness the spectral-efficiency theorem. -/
def exampleEntry : ModcodEntry :=
  { id := "m1", info_bits_per_symbol := some 1, rolloff := some 0.25 }

/-- Concrete entry without a stored roll-off, used to witness the
default-resolution branch. -/
def plainEntry : ModcodEntry := { id := "m2" }

/-- Providers returning zero attenuation everywhere (witness input). -/
def zeroProviders : Providers :=
  { rain_attenuation := fun _ _ _ _ _ _ => 0
    gaseous_attenuation := fun _ _ _ _ _ => 0
    cloud_attenuation := fun _ _ _ _ _ => 0 }

/-- A direction dict with 1 Hz carrier and bandwidth at the subsatellite
point and an explicit 30° elevation (concrete test input). -/
def demoDirection : DirectionData :=
  { frequency_hz := some 1
    bandwidth_hz := some 1
    elevation_deg := some 30
    ground_lat_deg := some 0
    ground_lon_deg := some 0 }

/-- A concrete Regenerative request (counterexample input for the null
combined margin claim). -/
def regenRequest : CalcRequest :=
  { transponder_type := .REGENERATIVE
    runtime_sat_longitude_deg := some 10
    uplink := demoDirection
    downlink := demoDirection }

/-- A Transparent request with differing per-direction bandwidths and no
shared value (witness input for the bandwidth rule). -/
def mismatchedBwRequest : CalcRequest :=
  { transponder_type := .TRANSPARENT
    uplink := { demoDirection with bandwidth_hz := some 2000000 }
    downlink := { demoDirection with bandwidth_hz := some 3000000 } }

/-- A Regenerative request that supplies a shared runtime bandwidth
(witness input for the bandwidth rule). -/
def sharedBwRegenRequest : CalcRequest :=
  { transponder_type := .REGENERATIVE
    runtime_bandwidth_hz := some 1000000 }

/-- The direction parameters built from `demoDirection` for the uplink. -/
def demoUplinkParams : LinkDirectionParameters :=
  { frequency_hz := 1, bandwidth_hz := 1, elevation_deg := 30,
    rain_rate_mm_per_hr := 0, temperature_k := 290, ground_lat_deg := 0,
    ground_lon_deg := 0 }

/-- The direction parameters built from `demoDirection` for the downlink
(default temperature 120 K). -/
def demoDownlinkParams : LinkDirectionParameters :=
  { frequency_hz := 1, bandwidth_hz := 1, elevation_deg := 30,
    rain_rate_mm_per_hr := 0, temperature_k := 120, ground_lat_deg := 0,
    ground_lon_deg := 0 }

/-- The request transformation of the rain-rate monotonicity claim: the
same request with the uplink rain rate replaced and everything else held
fixed. -/
def withUplinkRain (req : CalcRequest) (r : ℝ) : CalcRequest :=
  { req with uplink := { req.uplink with rain_rate_mm_per_hr := some r } }

/-- Providers whose rain model returns the rain rate itself (monotone
non-decreasing and nonnegative on nonnegative rates) and zero gaseous and
cloud attenuation (concrete test input). -/
def c6Providers : Providers :=
  { rain_attenuation := fun _ _ _ _ _ rr => rr
    gaseous_attenuation := fun _ _ _ _ _ => 0
    cloud_attenuation := fun _ _ _ _ _ => 0 }

/-- Transmit EIRP tuned so that the rain-free combined C/N0 of the
rain-sweep test request is exactly 70 dBHz. -/
def c6Eirp : ℝ :=
  70 + 10 * Real.logb 10 2 +
    (20 * Real.logb 10 35786000 + FSPL_CONST_4PI_OVER_C_DB) + 0.1 - 228.6

/-- Context of the rain-sweep test request: the tuned EIRP on both
directions and zero G/T. -/
def c6Context : CommunicationContext :=
  { uplink_tx_eirp_dbw := c6Eirp
    uplink_rx_gt_db_per_k := 0
    downlink_tx_eirp_dbw := c6Eirp
    downlink_rx_gt_db_per_k := 0 }

/-- Base Transparent request of the rain-sweep test: satellite at the
subsatellite point of the ground station, 1 Hz carrier and bandwidth,
default ModCod table. -/
def c6BaseRequest : CalcRequest :=
  { transponder_type := .TRANSPARENT
    asset_sat_longitude_deg := some 0
    uplink := demoDirection
    downlink := demoDirection
    context := c6Context }

/-- The rain-sweep test request at uplink rain rate `r`. -/
def c6Request (r : ℝ) : CalcRequest := withUplinkRain c6BaseRequest r

/-- C8: `combine_cn_db(a, b)` is commutative, and combining a value with
itself yields `a - 10 * log10 2` (exactly, in real semantics). -/
theorem combine_cn_db_comm_and_self (a b : ℝ) :
    combine_cn_db a b = combine_cn_db b a ∧
      combine_cn_db a a = a - 10 * Real.logb 10 2 := by
  constructor
  · simp only [combine_cn_db]
    rw [add_comm]
  · simp only [combine_cn_db]
    have hpow : (0 : ℝ) < (10 : ℝ) ^ (a / 10) :=
      Real.rpow_pos_of_pos (by norm_num) _
    have h1 : 1 / (1 / (10 : ℝ) ^ (a / 10) + 1 / (10 : ℝ) ^ (a / 10)) =
        (10 : ℝ) ^ (a / 10) / 2 := by
      field_simp
      norm_num
    rw [h1, Real.logb_div (ne_of_gt hpow) two_ne_zero,
      Real.logb_rpow (by norm_num) (by norm_num)]
    ring

/-- C10: the impairment helpers defined inline inside
`CalculationService.calculate` are extensionally equal to the module-level
functions of the impairments module: `_interference_inputs d` agrees with
`compute_interference` on `d`'s interference block, `_estimate_c_im` agrees
with `estimate_intermodulation`, and the inline `_apply_impairments` agrees
with `apply_impairments` on every input. -/
theorem inline_helpers_equal_module_functions :
    (∀ d : DirectionData,
        CalculationService.interference_inputs d =
          compute_interference d.interference) ∧
    (∀ b : Option IntermodBlock,
        CalculationService.estimate_c_im b = estimate_intermodulation b) ∧
    (∀ (r : CalculationResult) (bw : Option ℝ) (ioc : ℝ) (agg : Option ℝ)
        (fl ai : Bool) (cim : Option ℝ),
        CalculationService.apply_impairments r bw ioc agg fl ai cim =
          apply_impairments r bw ioc agg fl ai cim) := by
  refine ⟨fun d => rfl, fun b => rfl, fun r bw ioc agg fl ai cim => ?_⟩
  cases bw with
  | none => rfl
  | some b => rfl

theorem foldl_select_none {α : Type*} (P : α → Prop) [DecidablePred P] :
    ∀ (l : List α) (acc : Option α), (∀ e ∈ l, ¬ P e) →
      l.foldl (fun selected e => if P e then some e else selected) acc = acc
  | [], _, _ => rfl
  | a :: t, acc, h => by
    simp only [List.foldl_cons]
    rw [if_neg (h a (List.mem_cons_self a t))]
    exact foldl_select_none P t acc fun e he => h e (List.mem_cons_of_mem a he)

theorem foldl_select_exists {α : Type*} (P : α → Prop) [DecidablePred P]
    (r : α → α → Prop) (hrefl : ∀ x, r x x) :
    ∀ (l : List α) (acc : Option α), l.Sorted r → (∃ e ∈ l, P e) →
      ∃ res ∈ l, P res ∧
        l.foldl (fun selected e => if P e then some e else selected) acc =
          some res ∧
        ∀ e ∈ l, P e → r e res
  | [], _, _, hex => absurd hex (by simp)
  | a :: t, acc, hsort, hex => by
    simp only [List.foldl_cons]
    by_cases hext : ∃ e ∈ t, P e
    · obtain ⟨res, hresmem, hPres, hfold, hmax⟩ :=
        foldl_select_exists P r hrefl t (if P a then some a else acc)
          hsort.of_cons hext
      refine ⟨res, List.mem_cons_of_mem a hresmem, hPres, hfold, ?_⟩
      intro e he hPe
      rcases List.mem_cons.mp he with rfl | het
      · exact (List.sorted_cons.mp hsort).1 res hresmem
      · exact hmax e het hPe
    · have hPa : P a := by
        rcases hex with ⟨e, he, hPe⟩
        rcases List.mem_cons.mp he with rfl | het
        · exact hPe
        · exact absurd ⟨e, het, hPe⟩ hext
      rw [if_pos hPa]
      push_neg at hext
      refine ⟨a, List.mem_cons_self a t, hPa,
        foldl_select_none P t (some a) hext, ?_⟩
      intro e he hPe
      rcases List.mem_cons.mp he with rfl | het
      · exact hrefl _
      · exact absurd hPe (hext e het)

/-- C2: for every valid non-empty ModCod table and every C/N0 value with
optional bandwidth and roll-off, `select_modcod` returns an entry of the
table; when some entry's required signal quality is met (satisfaction per
`entrySatisfied`: available Eb/N0 against required Eb/N0 when a bandwidth
is given, else C/N0 against the C/N0 threshold) it returns a satisfied
entry whose threshold (required C/N0, else required Eb/N0, else +infinity)
is maximal among satisfied entries; when no entry is satisfied it returns
an entry of minimal threshold; it never returns `none`. -/
theorem select_modcod_highest_satisfied (table : List ModcodEntry) (cn0 : ℝ)
    (bw ro : Option ℝ) (hne : table ≠ []) (_hvalid : validTable table) :
    ∃ r, select_modcod table cn0 bw ro = some r ∧ r ∈ table ∧
      ((∃ e ∈ table, entrySatisfied cn0 bw ro e) →
        entrySatisfied cn0 bw ro r ∧
          ∀ e ∈ table, entrySatisfied cn0 bw ro e →
            threshold e ≤ threshold r) ∧
      ((∀ e ∈ table, ¬ entrySatisfied cn0 bw ro e) →
        ∀ e ∈ table, threshold r ≤ threshold e) := by
  have hperm : List.Perm (sortedEntries table) table :=
    List.perm_insertionSort thresholdLE table
  have hsort : (sortedEntries table).Sorted thresholdLE :=
    List.sorted_insertionSort thresholdLE table
  unfold select_modcod
  cases hs : sortedEntries table with
  | nil =>
    rw [hs] at hperm
    exact absurd hperm.symm.eq_nil hne
  | cons e0 rest =>
    rw [hs] at hperm hsort
    by_cases hex : ∃ e ∈ (e0 :: rest), entrySatisfied cn0 bw ro e
    · obtain ⟨res, hresmem, hPres, hfold, hmax⟩ :=
        foldl_select_exists (entrySatisfied cn0 bw ro) thresholdLE
          (fun _ => le_refl _) (e0 :: rest) none hsort hex
      refine ⟨res, ?_, hperm.mem_iff.mp hresmem, ?_, ?_⟩
      · show some ((List.foldl
            (fun selected e =>
              if entrySatisfied cn0 bw ro e then some e else selected)
            none (e0 :: rest)).getD e0) = some res
        rw [hfold]
        rfl
      · intro _
        exact ⟨hPres, fun e he hPe => hmax e (hperm.mem_iff.mpr he) hPe⟩
      · intro hnone
        exact (hnone res (hperm.mem_iff.mp hresmem) hPres).elim
    · have hnonesat : ∀ e ∈ (e0 :: rest), ¬ entrySatisfied cn0 bw ro e := by
        push_neg at hex
        exact hex
      have hfold := foldl_select_none (entrySatisfied cn0 bw ro)
        (e0 :: rest) none hnonesat
      refine ⟨e0, ?_, hperm.mem_iff.mp (List.mem_cons_self e0 rest), ?_, ?_⟩
      · show some ((List.foldl
            (fun selected e =>
              if entrySatisfied cn0 bw ro e then some e else selected)
            none (e0 :: rest)).getD e0) = some e0
        rw [hfold]
        rfl
      · rintro ⟨e, he, hPe⟩
        exact (hnonesat e (hperm.mem_iff.mpr he) hPe).elim
      · intro _ e he
        rcases List.mem_cons.mp (hperm.mem_iff.mpr he) with rfl | het
        · exact le_refl _
        · exact (List.sorted_cons.mp hsort).1 e het

theorem select_modcod_highest_satisfied_witness :
    ∃ r, select_modcod [witnessEntry] 80 none none = some r ∧
      r ∈ [witnessEntry] ∧
      ((∃ e ∈ [witnessEntry], entrySatisfied 80 none none e) →
        entrySatisfied 80 none none r ∧
          ∀ e ∈ [witnessEntry], entrySatisfied 80 none none e →
            threshold e ≤ threshold r) ∧
      ((∀ e ∈ [witnessEntry], ¬ entrySatisfied 80 none none e) →
        ∀ e ∈ [witnessEntry], threshold r ≤ threshold e) :=
  select_modcod_highest_satisfied [witnessEntry] 80 none none
    (by simp)
    (by
      intro e he
      rw [List.mem_singleton] at he
      exact ⟨1, by rw [he]; rfl, one_pos⟩)

theorem invalidInfoBits_eq_true_iff (e : ModcodEntry) :
    invalidInfoBits e = true ↔
      e.info_bits_per_symbol = none ∨
        ∃ v, e.info_bits_per_symbol = some v ∧ v ≤ 0 := by
  unfold invalidInfoBits
  cases h : e.info_bits_per_symbol with
  | none => simp [h]
  | some v => simp [h]

/-- C3 (amended): constructing a DVB-S2X strategy raises a configuration
error exactly when some normalized entry carries a missing or non-positive
info_bits_per_symbol (after inference for dict entries); an entry lacking
both thresholds is not rejected at construction. -/
theorem mk_strategy_error_iff (table : List (ModcodEntry ⊕ RawModcodEntry)) :
    (∃ err, mkDvbS2xStrategy table = Except.error err) ↔
      ∃ e ∈ table.map normalizeEntry,
        e.info_bits_per_symbol = none ∨
          ∃ v, e.info_bits_per_symbol = some v ∧ v ≤ 0 := by
  have hmain : mkDvbS2xStrategy table =
      match (table.map normalizeEntry).find? invalidInfoBits with
      | some e => Except.error e.id
      | none => Except.ok (table.map normalizeEntry) := rfl
  cases hf : (table.map normalizeEntry).find? invalidInfoBits with
  | some e =>
    rw [hmain, hf]
    constructor
    · intro _
      exact ⟨e, List.mem_of_find?_eq_some hf,
        (invalidInfoBits_eq_true_iff e).mp (List.find?_some hf)⟩
    · intro _
      exact ⟨e.id, rfl⟩
  | none =>
    rw [hmain, hf]
    constructor
    · rintro ⟨err, h⟩
      exact Except.noConfusion h
    · rintro ⟨e, hmem, hbad⟩
      exact absurd ((invalidInfoBits_eq_true_iff e).mpr hbad)
        (by simpa using List.find?_eq_none.mp hf e hmem)

/-- C3 counterexample: a table whose single entry lacks both thresholds but
carries a positive info_bits_per_symbol is accepted at construction time,
contradicting the claim that such a table raises a configuration error. -/
theorem mk_strategy_accepts_thresholdless :
    thresholdlessEntry.required_cn0_dbhz = none ∧
      thresholdlessEntry.required_ebno_db = none ∧
      mkDvbS2xStrategy [Sum.inl thresholdlessEntry] =
        Except.ok [thresholdlessEntry] := by
  refine ⟨rfl, rfl, ?_⟩
  have hfalse : invalidInfoBits thresholdlessEntry = false := by
    simp only [invalidInfoBits, thresholdlessEntry, decide_eq_false_iff_not]
    norm_num
  unfold mkDvbS2xStrategy
  simp [normalizeEntry, List.find?, hfalse]

/-- C9: effective spectral efficiency of the roll-off family at resolved
roll-off 0.35 and one information bit per symbol equals 1/1.35, of the
overhead family at resolved overhead 0.14 equals 0.86, and both families
resolve the roll-off/overhead with precedence explicit call argument over
per-entry stored value over family default. -/
theorem spectral_efficiency_values_and_precedence :
    (∀ e : ModcodEntry, e.info_bits_per_symbol = some 1 →
      effective_spectral_efficiency e (some 0.35) = 1 / 1.35) ∧
    (∀ e : ModcodEntry, e.info_bits_per_symbol = some 1 →
      NrStrategy.effective_spectral_efficiency e (some 0.14) = 0.86) ∧
    (∀ (e : ModcodEntry) (a : ℝ), 0 ≤ a → resolve_rolloff e (some a) = a) ∧
    (∀ (e : ModcodEntry) (rv : ℝ), e.rolloff = some rv → 0 ≤ rv →
      resolve_rolloff e none = rv) ∧
    (∀ e : ModcodEntry, e.rolloff = none →
      resolve_rolloff e none = default_rolloff) ∧
    (∀ (e : ModcodEntry) (a : ℝ), 0 ≤ a → a ≤ 1 →
      NrStrategy.resolve_overhead e (some a) = a) ∧
    (∀ (e : ModcodEntry) (rv : ℝ), e.rolloff = some rv → 0 ≤ rv → rv ≤ 1 →
      NrStrategy.resolve_overhead e none = rv) ∧
    (∀ e : ModcodEntry, e.rolloff = none →
      NrStrategy.resolve_overhead e none = NrStrategy.default_overhead) := by
  refine ⟨?_, ?_, ?_, ?_, ?_, ?_, ?_, ?_⟩
  · intro e h
    simp only [effective_spectral_efficiency, resolve_rolloff,
      info_bits_value, h]
    norm_num
  · intro e h
    simp only [NrStrategy.effective_spectral_efficiency,
      NrStrategy.resolve_overhead, info_bits_value, h]
    norm_num
  · intro e a ha
    simp only [resolve_rolloff, Option.getD_some]
    exact max_eq_left ha
  · intro e rv h hrv
    simp only [resolve_rolloff, h, Option.getD_some]
    exact max_eq_left hrv
  · intro e h
    simp only [resolve_rolloff, h, Option.getD_none]
    simp only [default_rolloff]
    norm_num
  · intro e a ha ha1
    simp only [NrStrategy.resolve_overhead, Option.getD_some]
    rw [min_eq_left ha1]
    exact max_eq_left ha
  · intro e rv h hrv hrv1
    simp only [NrStrategy.resolve_overhead, h, Option.getD_some]
    rw [min_eq_left hrv1]
    exact max_eq_left hrv
  · intro e h
    simp only [NrStrategy.resolve_overhead, h, Option.getD_none,
      NrStrategy.default_overhead]
    norm_num

theorem spectral_efficiency_values_witness :
    effective_spectral_efficiency exampleEntry (some 0.35) = 1 / 1.35 ∧
      NrStrategy.effective_spectral_efficiency exampleEntry (some 0.14) =
        0.86 ∧
      resolve_rolloff exampleEntry (some 0.3) = 0.3 ∧
      resolve_rolloff exampleEntry none = 0.25 ∧
      resolve_rolloff plainEntry none = default_rolloff ∧
      NrStrategy.resolve_overhead exampleEntry (some 0.3) = 0.3 ∧
      NrStrategy.resolve_overhead exampleEntry none = 0.25 ∧
      NrStrategy.resolve_overhead plainEntry none =
        NrStrategy.default_overhead :=
  ⟨spectral_efficiency_values_and_precedence.1 exampleEntry rfl,
   spectral_efficiency_values_and_precedence.2.1 exampleEntry rfl,
   spectral_efficiency_values_and_precedence.2.2.1 exampleEntry 0.3
     (by norm_num),
   spectral_efficiency_values_and_precedence.2.2.2.1 exampleEntry 0.25 rfl
     (by norm_num),
   spectral_efficiency_values_and_precedence.2.2.2.2.1 plainEntry rfl,
   spectral_efficiency_values_and_precedence.2.2.2.2.2.1 exampleEntry 0.3
     (by norm_num) (by norm_num),
   spectral_efficiency_values_and_precedence.2.2.2.2.2.2.1 exampleEntry 0.25
     rfl (by norm_num) (by norm_num),
   spectral_efficiency_values_and_precedence.2.2.2.2.2.2.2 plainEntry rfl⟩

theorem crossoverScan_cons_of_noCross (t : ℝ) (a b : SweepPoint)
    (rest : List SweepPoint) (hab : pairNoCross t a b) :
    crossoverScan t (a :: b :: rest) = crossoverScan t (b :: rest) := by
  cases hm1 : a.combined_link_margin_db with
  | none => simp [crossoverScan, hm1]
  | some m1 =>
    cases hm2 : b.combined_link_margin_db with
    | none => simp [crossoverScan, hm1, hm2]
    | some m2 =>
      simp only [crossoverScan, hm1, hm2]
      rw [if_neg (not_lt.mpr (hab m1 m2 hm1 hm2))]

theorem crossoverScan_eq_none (t : ℝ) :
    ∀ pts : List SweepPoint, List.Chain' (pairNoCross t) pts →
      crossoverScan t pts = none
  | [], _ => rfl
  | [_], _ => rfl
  | a :: b :: rest, h => by
    rw [crossoverScan_cons_of_noCross t a b rest (List.chain'_cons.mp h).1]
    exact crossoverScan_eq_none t (b :: rest) (List.chain'_cons.mp h).2

theorem crossoverScan_first_cross (t : ℝ) (p q : SweepPoint)
    (l2 : List SweepPoint) (m1 m2 : ℝ)
    (hm1 : p.combined_link_margin_db = some m1)
    (hm2 : q.combined_link_margin_db = some m2)
    (hcross : (m1 - t) * (m2 - t) < 0) :
    ∀ l1 : List SweepPoint, List.Chain' (pairNoCross t) (l1 ++ [p]) →
      crossoverScan t (l1 ++ p :: q :: l2) =
        some (p.sweep_value +
          (t - m1) / (m2 - m1) * (q.sweep_value - p.sweep_value))
  | [], _ => by
    show crossoverScan t (p :: q :: l2) = _
    simp only [crossoverScan, hm1, hm2]
    rw [if_pos hcross]
  | [a], h => by
    have hap : pairNoCross t a p := (List.chain'_cons.mp h).1
    show crossoverScan t (a :: p :: q :: l2) = _
    rw [crossoverScan_cons_of_noCross t a p (q :: l2) hap]
    exact crossoverScan_first_cross t p q l2 m1 m2 hm1 hm2 hcross []
      (List.chain'_singleton p)
  | a :: b :: l1', h => by
    have hab : pairNoCross t a b := (List.chain'_cons.mp h).1
    show crossoverScan t (a :: b :: (l1' ++ p :: q :: l2)) = _
    rw [crossoverScan_cons_of_noCross t a b (l1' ++ p :: q :: l2) hab]
    exact crossoverScan_first_cross t p q l2 m1 m2 hm1 hm2 hcross (b :: l1')
      (List.chain'_cons.mp h).2

/-- C5: `compute_crossover` scans consecutive pairs in order and, on the
first pair whose (margin - threshold) values have a strictly negative
product (earlier pairs non-crossing or lacking a margin), returns the
linearly interpolated swept value; margins [10, 3, -4] at values
[0, 50, 100] with threshold 5 give 250/7; exact equality at a sample point
never triggers a crossing with its neighbor (the product 0 is not strictly
negative, covered by the non-crossing case); `none` results when no
threshold is set or no strict sign change exists. -/
theorem compute_crossover_spec :
    compute_crossover examplePoints (some 5) = some (250 / 7) ∧
    (∀ pts : List SweepPoint, compute_crossover pts none = none) ∧
    (∀ (t : ℝ) (pts : List SweepPoint), List.Chain' (pairNoCross t) pts →
      compute_crossover pts (some t) = none) ∧
    (∀ (t : ℝ) (l1 : List SweepPoint) (p q : SweepPoint)
        (l2 : List SweepPoint) (m1 m2 : ℝ),
      p.combined_link_margin_db = some m1 →
      q.combined_link_margin_db = some m2 →
      (m1 - t) * (m2 - t) < 0 →
      List.Chain' (pairNoCross t) (l1 ++ [p]) →
      compute_crossover (l1 ++ p :: q :: l2) (some t) =
        some (p.sweep_value +
          (t - m1) / (m2 - m1) * (q.sweep_value - p.sweep_value))) := by
  refine ⟨?_, fun pts => rfl,
    fun t pts h => crossoverScan_eq_none t pts h, ?_⟩
  · show crossoverScan 5 examplePoints = some (250 / 7)
    simp only [examplePoints, crossoverScan]
    rw [if_pos (by norm_num)]
    norm_num
  · intro t l1 p q l2 m1 m2 hm1 hm2 hcross hchain
    exact crossoverScan_first_cross t p q l2 m1 m2 hm1 hm2 hcross l1 hchain

theorem compute_crossover_spec_witness :
    compute_crossover
        [{ sweep_value := 0, combined_link_margin_db := some 6 },
         { sweep_value := 10, combined_link_margin_db := some 8 }]
        (some 5) = none ∧
    compute_crossover
        ([] ++ ({ sweep_value := 0, combined_link_margin_db := some 10 } :
            SweepPoint) ::
          ({ sweep_value := 50, combined_link_margin_db := some 3 } :
            SweepPoint) ::
          [{ sweep_value := 100, combined_link_margin_db := some (-4) }])
        (some 5) = some (0 + (5 - 10) / (3 - 10) * (50 - 0)) :=
  ⟨compute_crossover_spec.2.2.1 5 _
      (List.chain'_cons.mpr
        ⟨by
          intro m1 m2 h1 h2
          simp only at h1 h2
          obtain rfl := Option.some.inj h1.symm
          obtain rfl := Option.some.inj h2.symm
          norm_num,
         List.chain'_singleton _⟩),
   compute_crossover_spec.2.2.2 5 [] _ _ _ 10 3 rfl rfl (by norm_num)
     (List.chain'_singleton _)⟩

theorem apply_impairments_core (result : CalculationResult) (bw : ℝ)
    (hbw : bw ≠ 0) (ioc : ℝ) (agg : Option ℝ) (fl ai : Bool)
    (cim : Option ℝ) :
    (apply_impairments result (some bw) ioc agg fl ai cim).cn_db =
      10 * Real.logb 10 (1 / (1 / (10 : ℝ) ^ (result.cn_db / 10) +
        interferenceTerm ioc + intermodTerm ai cim)) ∧
    (apply_impairments result (some bw) ioc agg fl ai cim).cn0_dbhz =
      (apply_impairments result (some bw) ioc agg fl ai cim).cn_db +
        10 * Real.logb 10 bw ∧
    (apply_impairments result (some bw) ioc agg fl ai cim).link_margin_db =
      result.link_margin_db +
        ((apply_impairments result (some bw) ioc agg fl ai cim).cn_db -
          result.cn_db) ∧
    (apply_impairments result (some bw) ioc agg fl ai cim).cni_db =
      some (if 0 < interferenceTerm ioc then
        10 * Real.logb 10 (1 / (1 / (10 : ℝ) ^ (result.cn_db / 10) +
          interferenceTerm ioc))
      else result.cn_db) := by
  have hpow : ∀ x : ℝ, (0 : ℝ) < (10 : ℝ) ^ x :=
    fun x => Real.rpow_pos_of_pos (by norm_num) x
  have hth : 0 < 1 / (10 : ℝ) ^ (result.cn_db / 10) :=
    div_pos one_pos (hpow _)
  have hint : 0 ≤ (if 0 < ioc then ioc else 0) := by
    split_ifs with h
    · exact le_of_lt h
    · exact le_refl 0
  rcases cim with _ | v
  · have htot : 0 < 1 / (10 : ℝ) ^ (result.cn_db / 10) +
        (if 0 < ioc then ioc else 0) + 0 := by linarith
    cases ai <;>
      exact ⟨by simp only [apply_impairments, interferenceTerm, intermodTerm,
          if_neg hbw, Bool.false_eq_true, if_false, if_true, if_pos htot],
        by simp only [apply_impairments, if_neg hbw, Bool.false_eq_true,
          if_false, if_true, if_pos htot],
        by simp only [apply_impairments, if_neg hbw, Bool.false_eq_true,
          if_false, if_true, if_pos htot],
        by simp only [apply_impairments, interferenceTerm, if_neg hbw,
          Bool.false_eq_true, if_false, if_true, if_pos htot]⟩
  · by_cases hv : v = 0
    · subst hv
      have htot : 0 < 1 / (10 : ℝ) ^ (result.cn_db / 10) +
          (if 0 < ioc then ioc else 0) + 0 := by linarith
      cases ai <;>
        exact ⟨by simp only [apply_impairments, interferenceTerm,
            intermodTerm, if_neg hbw, Bool.false_eq_true, if_false, if_true,
            if_pos rfl, ne_eq, not_true_eq_false, and_false, false_and,
            if_pos htot],
          by simp only [apply_impairments, if_neg hbw, Bool.false_eq_true,
            if_false, if_true, if_pos rfl, if_pos htot],
          by simp only [apply_impairments, if_neg hbw, Bool.false_eq_true,
            if_false, if_true, if_pos rfl, if_pos htot],
          by simp only [apply_impairments, interferenceTerm, if_neg hbw,
            Bool.false_eq_true, if_false, if_true, if_pos rfl,
            if_pos htot]⟩
    · cases ai
      · have htot : 0 < 1 / (10 : ℝ) ^ (result.cn_db / 10) +
            (if 0 < ioc then ioc else 0) + 0 := by linarith
        exact ⟨by simp only [apply_impairments, interferenceTerm,
            intermodTerm, if_neg hbw, Bool.false_eq_true, if_false,
            false_and, if_pos htot],
          by simp only [apply_impairments, if_neg hbw, Bool.false_eq_true,
            if_false, if_pos htot],
          by simp only [apply_impairments, if_neg hbw, Bool.false_eq_true,
            if_false, if_pos htot],
          by simp only [apply_impairments, interferenceTerm, if_neg hbw,
            Bool.false_eq_true, if_false, if_pos htot]⟩
      · have hcim : 0 < 1 / (10 : ℝ) ^ (v / 10) := div_pos one_pos (hpow _)
        have htot : 0 < 1 / (10 : ℝ) ^ (result.cn_db / 10) +
            (if 0 < ioc then ioc else 0) + 1 / (10 : ℝ) ^ (v / 10) := by
          linarith
        exact ⟨by simp only [apply_impairments, interferenceTerm,
            intermodTerm, if_neg hbw, if_true, if_false, ne_eq, hv,
            not_false_eq_true, and_true, eq_self_iff_true, true_and,
            if_pos (hpow (v / 10)), if_pos htot],
          by simp only [apply_impairments, if_neg hbw, if_true, if_false,
            ne_eq, hv, not_false_eq_true, if_pos (hpow (v / 10)),
            if_pos htot],
          by simp only [apply_impairments, if_neg hbw, if_true, if_false,
            ne_eq, hv, not_false_eq_true, if_pos (hpow (v / 10)),
            if_pos htot],
          by simp only [apply_impairments, interferenceTerm, if_neg hbw,
            if_true, if_false, ne_eq, hv, not_false_eq_true,
            if_pos (hpow (v / 10)), if_pos htot]⟩

/-- C4 (amended): for every result and positive bandwidth,
`apply_impairments` degrades C/N to the reciprocal sum of the thermal C/N,
the interference C/I when present, and the intermodulation C/IM when
application is requested and the C/IM value is present and NONZERO (a C/IM
of exactly 0 dB is skipped by the float-truthiness test, even when the
estimate reported applied = true); C/N0 is recomputed from the new C/N with
the same bandwidth, and the link margin shifts by exactly the C/N delta.
Applying C/I = 10 dB to a clean C/N of 20 dB yields
C/(N+I) = 10·log10(1/(10^(-2) + 10^(-1))). -/
theorem apply_impairments_reciprocal_sum (result : CalculationResult)
    (bw : ℝ) (hbw : 0 < bw) (ioc : ℝ) (agg : Option ℝ) (fl ai : Bool)
    (cim : Option ℝ) :
    (apply_impairments result (some bw) ioc agg fl ai cim).cn_db =
      10 * Real.logb 10 (1 / ((10 : ℝ) ^ (-result.cn_db / 10) +
        interferenceTerm ioc + intermodTerm ai cim)) ∧
    (apply_impairments result (some bw) ioc agg fl ai cim).cn0_dbhz =
      (apply_impairments result (some bw) ioc agg fl ai cim).cn_db +
        10 * Real.logb 10 bw ∧
    (apply_impairments result (some bw) ioc agg fl ai cim).link_margin_db =
      result.link_margin_db +
        ((apply_impairments result (some bw) ioc agg fl ai cim).cn_db -
          result.cn_db) ∧
    (apply_impairments cn20Result (some 1)
        (compute_interference (some { adjacent_sat_ci_db := some 10 })).1
        (compute_interference (some { adjacent_sat_ci_db := some 10 })).2.1
        (compute_interference (some { adjacent_sat_ci_db := some 10 })).2.2
        false none).cni_db =
      some (10 * Real.logb 10
        (1 / ((10 : ℝ) ^ (-(2 : ℝ)) + (10 : ℝ) ^ (-(1 : ℝ))))) := by
  obtain ⟨h1, h2, h3, _⟩ :=
    apply_impairments_core result bw (ne_of_gt hbw) ioc agg fl ai cim
  have hrw : (10 : ℝ) ^ (-result.cn_db / 10) =
      1 / (10 : ℝ) ^ (result.cn_db / 10) := by
    rw [neg_div, Real.rpow_neg (by norm_num), one_div]
  refine ⟨by rw [h1, hrw], h2, h3, ?_⟩
  obtain ⟨_, _, _, h4⟩ := apply_impairments_core cn20Result 1 one_ne_zero
    ((compute_interference (some { adjacent_sat_ci_db := some 10 })).1)
    ((compute_interference (some { adjacent_sat_ci_db := some 10 })).2.1)
    ((compute_interference (some { adjacent_sat_ci_db := some 10 })).2.2)
    false none
  rw [h4]
  have hioc : (compute_interference
      (some ({ adjacent_sat_ci_db := some 10 } : InterferenceBlock))).1 =
      1 / (10 : ℝ) ^ ((10 : ℝ) / 10) := by
    simp [compute_interference]
  rw [hioc]
  have hpos : (0 : ℝ) < 1 / (10 : ℝ) ^ ((10 : ℝ) / 10) :=
    div_pos one_pos (Real.rpow_pos_of_pos (by norm_num) _)
  simp only [interferenceTerm, if_pos hpos, cn20Result]
  norm_num [Real.rpow_neg]

theorem apply_impairments_reciprocal_sum_witness :
    (0 : ℝ) < 1 ∧
    (apply_impairments cleanResult (some 1) 0 none false false none).cn_db =
      10 * Real.logb 10 (1 / ((10 : ℝ) ^ (-cleanResult.cn_db / 10) +
        interferenceTerm 0 + intermodTerm false none)) :=
  ⟨by norm_num,
   (apply_impairments_reciprocal_sum cleanResult 1 (by norm_num) 0 none
     false false none).1⟩

/-- C4 counterexample: for 10 composite carriers at output backoff -2 dB the
intermodulation estimate reports C/IM = 0 dB with applied = true; applying
impairments to a clean C/N of 0 dB in a 1 Hz bandwidth with intermodulation
application requested leaves C/N at 0 dB (the zero C/IM is skipped), whereas
the claim's reciprocal-sum formula, which includes the C/IM term whenever
applied = true and application was requested, gives a nonzero value. -/
theorem apply_impairments_zero_cim_counterexample :
    estimate_intermodulation (some { composite_carriers := some 10
                                     output_backoff_db := some (-2) }) =
      (some 0, true) ∧
    (apply_impairments cleanResult (some 1) 0 none false true
      (some 0)).cn_db = 0 ∧
    claimDegradedCn cleanResult.cn_db 0 true true (some 0) ≠ 0 := by
  refine ⟨?_, ?_, ?_⟩
  · have hlog : Real.logb 10 (10 : ℝ) = 1 :=
      Real.logb_self_eq_one (by norm_num)
    simp only [estimate_intermodulation]
    rw [if_neg (by norm_num : ¬ (10 : ℝ) < 1)]
    rw [hlog]
    norm_num
  · obtain ⟨h1, _, _, _⟩ :=
      apply_impairments_core cleanResult 1 one_ne_zero 0 none false true
        (some 0)
    rw [h1]
    have hterm : intermodTerm true (some 0) = 0 := by
      simp [intermodTerm]
    have hintf : interferenceTerm 0 = 0 := by
      simp [interferenceTerm]
    rw [hterm, hintf]
    simp only [cleanResult]
    norm_num
  · simp only [claimDegradedCn, cleanResult]
    norm_num

theorem calculateCore_resolveBandwidth_error (P : Providers)
    (req : CalcRequest) (e : CalcError)
    (h : resolveBandwidth req.transponder_type req.runtime_bandwidth_hz
      req.uplink req.downlink = .error e) :
    calculateCore P req = .error e := by
  unfold calculateCore
  rw [h]

/-- C7: `calculate` rejects with a 400 validation error, independently of
the propagation providers (hence before any propagation computation), every
Transparent request in which an explicit (present and nonzero — the API
schema enforces positive bandwidths) per-direction bandwidth differs from
the resolved shared bandwidth, including requests with differing uplink and
downlink bandwidths and no shared value, and every Regenerative request
that supplies a shared runtime bandwidth_hz value. -/
theorem bandwidth_validation_rejects :
    (∀ (P : Providers) (req : CalcRequest) (s : ℝ),
      req.transponder_type = .TRANSPARENT →
      pyOr (pyOr req.runtime_bandwidth_hz req.uplink.bandwidth_hz)
        req.downlink.bandwidth_hz = some s →
      ((∃ b, req.uplink.bandwidth_hz = some b ∧ b ≠ 0 ∧ b ≠ s) ∨
        (∃ b, req.downlink.bandwidth_hz = some b ∧ b ≠ 0 ∧ b ≠ s)) →
      calculateCore P req = .error ⟨400, .commonBandwidthTransparent⟩) ∧
    (∀ (P : Providers) (req : CalcRequest) (b : ℝ),
      req.transponder_type = .REGENERATIVE →
      req.runtime_bandwidth_hz = some b →
      calculateCore P req = .error ⟨400, .perLinkBandwidthRegenerative⟩) := by
  constructor
  · intro P req s hT hshared hconf
    apply calculateCore_resolveBandwidth_error
    simp only [resolveBandwidth, hT, hshared]
    by_cases hu : bwConflicts req.uplink.bandwidth_hz s
    · rw [if_pos hu]
    · rw [if_neg hu]
      have hd : bwConflicts req.downlink.bandwidth_hz s := by
        rcases hconf with ⟨b, hb, hb0, hbs⟩ | ⟨b, hb, hb0, hbs⟩
        · exact absurd (show bwConflicts req.uplink.bandwidth_hz s by
            rw [hb]; exact ⟨hb0, hbs⟩) hu
        · rw [hb]; exact ⟨hb0, hbs⟩
      rw [if_pos hd]
  · intro P req b hR hbw
    apply calculateCore_resolveBandwidth_error
    simp only [resolveBandwidth, hR, hbw]

theorem bandwidth_validation_rejects_witness :
    calculateCore zeroProviders mismatchedBwRequest =
      .error ⟨400, .commonBandwidthTransparent⟩ ∧
    calculateCore zeroProviders sharedBwRegenRequest =
      .error ⟨400, .perLinkBandwidthRegenerative⟩ :=
  ⟨bandwidth_validation_rejects.1 zeroProviders mismatchedBwRequest 2000000
      rfl
      (by norm_num [mismatchedBwRequest, demoDirection, pyOr])
      (Or.inr ⟨3000000, rfl, by norm_num, by norm_num⟩),
   bandwidth_validation_rejects.2 zeroProviders sharedBwRegenRequest
     1000000 rfl rfl⟩

theorem foldl_select_mem {α : Type*} (P : α → Prop) [DecidablePred P] :
    ∀ (l : List α) (acc : Option α) (res : α),
      l.foldl (fun s e => if P e then some e else s) acc = some res →
      res ∈ l ∨ acc = some res
  | [], _, _, h => Or.inr h
  | a :: t, acc, res, h => by
    simp only [List.foldl_cons] at h
    rcases foldl_select_mem P t (if P a then some a else acc) res h with
      hmem | hacc
    · exact Or.inl (List.mem_cons_of_mem a hmem)
    · by_cases hPa : P a
      · rw [if_pos hPa] at hacc
        exact Or.inl (by
          rw [show res = a from (Option.some.inj hacc).symm]
          exact List.mem_cons_self a t)
      · rw [if_neg hPa] at hacc
        exact Or.inr hacc

theorem select_modcod_mem (t : List ModcodEntry) (c : ℝ) (b ro : Option ℝ)
    (r : ModcodEntry) (h : select_modcod t c b ro = some r) : r ∈ t := by
  have hperm : List.Perm (sortedEntries t) t :=
    List.perm_insertionSort thresholdLE t
  unfold select_modcod at h
  cases hs : sortedEntries t with
  | nil =>
    rw [hs] at h
    exact absurd h (by simp)
  | cons e0 rest =>
    rw [hs] at h hperm
    change some ((List.foldl
        (fun selected e =>
          if entrySatisfied c b ro e then some e else selected)
        none (e0 :: rest)).getD e0) = some r at h
    have h' := Option.some.inj h
    cases hf : List.foldl
        (fun selected e =>
          if entrySatisfied c b ro e then some e else selected)
        none (e0 :: rest) with
    | none =>
      rw [hf] at h'
      rw [show r = e0 from h'.symm]
      exact hperm.mem_iff.mp (List.mem_cons_self e0 rest)
    | some res =>
      rw [hf] at h'
      rcases foldl_select_mem (entrySatisfied c b ro) (e0 :: rest) none res
          hf with hmem | habs
      · rw [show r = res from h'.symm]
        exact hperm.mem_iff.mp hmem
      · exact absurd habs (by simp)

theorem select_modcod_with_margin_fst (t : List ModcodEntry) (c : ℝ)
    (b ro : Option ℝ) :
    (select_modcod_with_margin t c b ro).1 = select_modcod t c b ro := by
  unfold select_modcod_with_margin
  cases hsel : select_modcod t c b ro with
  | none => rfl
  | some entry =>
    cases hbr : bitrate_bps entry b ro with
    | none => simp only [hbr]
    | some br =>
      simp only [hbr]
      cases hrc : required_cn0 entry b with
      | some rc => simp only [hrc]
      | none =>
        simp only [hrc]
        cases hre : entry.required_ebno_db with
        | some re => simp only [hre]
        | none => simp only [hre]

theorem svc_apply_impairments_modcod_selected (r : CalculationResult)
    (bw : Option ℝ) (ioc : ℝ) (agg : Option ℝ) (fl ai : Bool)
    (cim : Option ℝ) :
    (CalculationService.apply_impairments r bw ioc agg fl ai
      cim).modcod_selected = r.modcod_selected := by
  cases bw with
  | none => rfl
  | some b =>
    by_cases hb : b = 0
    · simp only [CalculationService.apply_impairments, if_pos hb]
    · simp only [CalculationService.apply_impairments, if_neg hb]

theorem impairedDirection_modcod_selected (P : Providers)
    (req : CalcRequest) (sb : Option ℝ) (dd : DirectionData)
    (rt : RuntimeParameters) (dir : String) (ai : Bool) :
    (impairedDirection P req sb dd rt dir ai).modcod_selected = none := by
  simp only [impairedDirection]
  rw [svc_apply_impairments_modcod_selected]
  rfl

theorem regenerativeCombine_spec (tU tD : List ModcodEntry)
    (ro : Option ℝ) (up down : CalculationResult) (ulc dlc : ℝ)
    (hup : up.modcod_selected = none) (hdn : down.modcod_selected = none) :
    (regenerativeCombine tU tD ro up down ulc dlc).combined_cn_db = none ∧
    (regenerativeCombine tU tD ro up down ulc dlc).combined_cn0_dbhz =
      none ∧
    (regenerativeCombine tU tD ro up down ulc dlc).combined = none ∧
    (regenerativeCombine tU tD ro up down ulc dlc).combined_link_margin_db =
      some (min
        (regenerativeCombine tU tD ro up down ulc dlc).uplink.link_margin_db
        (regenerativeCombine tU tD ro up down ulc
          dlc).downlink.link_margin_db) ∧
    (regenerativeCombine tU tD ro up down ulc dlc).uplink.modcod_selected =
      (select_modcod tU
        (regenerativeCombine tU tD ro up down ulc dlc).uplink.cn0_dbhz
        (regenerativeCombine tU tD ro up down ulc dlc).uplink.bandwidth_hz
        ro).map (fun e => e.id) ∧
    (regenerativeCombine tU tD ro up down ulc
        dlc).downlink.modcod_selected =
      (select_modcod tD
        (regenerativeCombine tU tD ro up down ulc dlc).downlink.cn0_dbhz
        (regenerativeCombine tU tD ro up down ulc
          dlc).downlink.bandwidth_hz ro).map (fun e => e.id) := by
  refine ⟨rfl, rfl, rfl, rfl, ?_, ?_⟩
  · show (match (select_modcod_with_margin tU up.cn0_dbhz up.bandwidth_hz
            ro).1 with
        | some e => some e.id
        | none => up.modcod_selected) =
      (select_modcod tU up.cn0_dbhz up.bandwidth_hz ro).map (fun e => e.id)
    rw [select_modcod_with_margin_fst, hup]
    cases select_modcod tU up.cn0_dbhz up.bandwidth_hz ro <;> rfl
  · show (match (select_modcod_with_margin tD down.cn0_dbhz
            down.bandwidth_hz ro).1 with
        | some e => some e.id
        | none => down.modcod_selected) =
      (select_modcod tD down.cn0_dbhz down.bandwidth_hz ro).map
        (fun e => e.id)
    rw [select_modcod_with_margin_fst, hdn]
    cases select_modcod tD down.cn0_dbhz down.bandwidth_hz ro <;> rfl

theorem calculateCore_ok_elim (P : Providers) (req : CalcRequest)
    (resp : CalcResponse) (hok : calculateCore P req = .ok resp) :
    ∃ sb uld dld lon ulp dlp,
      resp = computeAndCombine P req sb uld dld lon ulp dlp := by
  unfold calculateCore at hok
  cases h1 : resolveBandwidth req.transponder_type req.runtime_bandwidth_hz
      req.uplink req.downlink with
  | error e =>
    simp only [h1] at hok
    exact Except.noConfusion hok
  | ok trip =>
    obtain ⟨sb, uld, dld⟩ := trip
    simp only [h1] at hok
    cases h2 : resolveSatLongitude req.runtime_sat_longitude_deg
        req.asset_sat_longitude_deg with
    | error e =>
      simp only [h2] at hok
      exact Except.noConfusion hok
    | ok lon =>
      simp only [h2] at hok
      cases h3 : build_direction lon uld "uplink" with
      | error e =>
        simp only [h3] at hok
        exact Except.noConfusion hok
      | ok ulp =>
        simp only [h3] at hok
        cases h4 : build_direction lon dld "downlink" with
        | error e =>
          simp only [h4] at hok
          exact Except.noConfusion hok
        | ok dlp =>
          simp only [h4, Except.ok.injEq] at hok
          exact ⟨sb, uld, dld, lon, ulp, dlp, hok.symm⟩

theorem transparentCombine_spec (t : List ModcodEntry) (ro : Option ℝ)
    (up down : CalculationResult) (ulc dlc : ℝ)
    (hup : up.modcod_selected = none) (hdn : down.modcod_selected = none)
    (hids : ∀ e ∈ t, e.id ≠ "") :
    (transparentCombine t ro up down ulc dlc).combined_cn_db =
      some (combine_cn_db
        (transparentCombine t ro up down ulc dlc).uplink.cn_db
        (transparentCombine t ro up down ulc dlc).downlink.cn_db) ∧
    (transparentCombine t ro up down ulc dlc).combined_cn0_dbhz =
      some (combine_cn_db
          (transparentCombine t ro up down ulc dlc).uplink.cn_db
          (transparentCombine t ro up down ulc dlc).downlink.cn_db +
        10 * Real.logb 10
          ((pyOr (transparentCombine t ro up down ulc
              dlc).downlink.bandwidth_hz
            (transparentCombine t ro up down ulc
              dlc).uplink.bandwidth_hz).getD 0)) ∧
    (transparentCombine t ro up down ulc dlc).uplink.modcod_selected =
      (select_modcod t
        (combine_cn_db
            (transparentCombine t ro up down ulc dlc).uplink.cn_db
            (transparentCombine t ro up down ulc dlc).downlink.cn_db +
          10 * Real.logb 10
            ((pyOr (transparentCombine t ro up down ulc
                dlc).downlink.bandwidth_hz
              (transparentCombine t ro up down ulc
                dlc).uplink.bandwidth_hz).getD 0))
        (some ((pyOr (transparentCombine t ro up down ulc
            dlc).downlink.bandwidth_hz
          (transparentCombine t ro up down ulc
            dlc).uplink.bandwidth_hz).getD 0)) ro).map (fun e => e.id) ∧
    (transparentCombine t ro up down ulc dlc).downlink.modcod_selected =
      (transparentCombine t ro up down ulc dlc).uplink.modcod_selected ∧
    (transparentCombine t ro up down ulc dlc).combined_link_margin_db =
      (select_modcod_with_margin t
        (combine_cn_db
            (transparentCombine t ro up down ulc dlc).uplink.cn_db
            (transparentCombine t ro up down ulc dlc).downlink.cn_db +
          10 * Real.logb 10
            ((pyOr (transparentCombine t ro up down ulc
                dlc).downlink.bandwidth_hz
              (transparentCombine t ro up down ulc
                dlc).uplink.bandwidth_hz).getD 0))
        (some ((pyOr (transparentCombine t ro up down ulc
            dlc).downlink.bandwidth_hz
          (transparentCombine t ro up down ulc
            dlc).uplink.bandwidth_hz).getD 0)) ro).2.2.2.1 := by
  refine ⟨rfl, rfl, ?_, ?_, rfl⟩
  · show (match ((select_modcod_with_margin t
          (combine_cn_db up.cn_db down.cn_db + 10 * Real.logb 10
            ((pyOr down.bandwidth_hz up.bandwidth_hz).getD 0))
          (some ((pyOr down.bandwidth_hz up.bandwidth_hz).getD 0))
          ro).1).map (fun e => e.id) with
      | some sid => if sid ≠ "" then some sid else up.modcod_selected
      | none => up.modcod_selected) =
      (select_modcod t
        (combine_cn_db up.cn_db down.cn_db + 10 * Real.logb 10
          ((pyOr down.bandwidth_hz up.bandwidth_hz).getD 0))
        (some ((pyOr down.bandwidth_hz up.bandwidth_hz).getD 0)) ro).map
        (fun e => e.id)
    rw [select_modcod_with_margin_fst, hup]
    cases hsel : select_modcod t
        (combine_cn_db up.cn_db down.cn_db + 10 * Real.logb 10
          ((pyOr down.bandwidth_hz up.bandwidth_hz).getD 0))
        (some ((pyOr down.bandwidth_hz up.bandwidth_hz).getD 0)) ro with
    | none => rfl
    | some e =>
      have hne : e.id ≠ "" := hids e (select_modcod_mem _ _ _ _ _ hsel)
      simp only [Option.map_some']
      rw [if_pos hne]
  · show (match ((select_modcod_with_margin t
          (combine_cn_db up.cn_db down.cn_db + 10 * Real.logb 10
            ((pyOr down.bandwidth_hz up.bandwidth_hz).getD 0))
          (some ((pyOr down.bandwidth_hz up.bandwidth_hz).getD 0))
          ro).1).map (fun e => e.id) with
      | some sid => if sid ≠ "" then some sid else down.modcod_selected
      | none => down.modcod_selected) =
      (match ((select_modcod_with_margin t
          (combine_cn_db up.cn_db down.cn_db + 10 * Real.logb 10
            ((pyOr down.bandwidth_hz up.bandwidth_hz).getD 0))
          (some ((pyOr down.bandwidth_hz up.bandwidth_hz).getD 0))
          ro).1).map (fun e => e.id) with
      | some sid => if sid ≠ "" then some sid else up.modcod_selected
      | none => up.modcod_selected)
    rw [hup, hdn]

/-- C1 (amended): when `calculate` completes, a Regenerative request
reports no combined C/N, C/N0 or combined block, but its
`combined_link_margin_db` is the MINIMUM of the two per-direction margins
(never null), and the ModCod selections are made independently per
direction, each against that direction's own C/N0 and bandwidth; a
Transparent request reports the combined C/N and C/N0, one shared selection
chosen once against the combined C/N0 and applied to both directions, and
the combined link margin taken from that single selection. -/
theorem transponder_combination_spec (P : Providers) (req : CalcRequest)
    (resp : CalcResponse) (hok : calculateCore P req = .ok resp) :
    (req.transponder_type = .REGENERATIVE →
      resp.combined_cn_db = none ∧ resp.combined_cn0_dbhz = none ∧
      resp.combined = none ∧
      resp.combined_link_margin_db =
        some (min resp.uplink.link_margin_db
          resp.downlink.link_margin_db) ∧
      resp.uplink.modcod_selected =
        (select_modcod req.uplink_table resp.uplink.cn0_dbhz
          resp.uplink.bandwidth_hz req.rolloff).map (fun e => e.id) ∧
      resp.downlink.modcod_selected =
        (select_modcod req.downlink_table resp.downlink.cn0_dbhz
          resp.downlink.bandwidth_hz req.rolloff).map (fun e => e.id)) ∧
    (req.transponder_type = .TRANSPARENT →
      (∀ e ∈ req.common_table, e.id ≠ "") →
      resp.combined_cn_db =
        some (combine_cn_db resp.uplink.cn_db resp.downlink.cn_db) ∧
      resp.combined_cn0_dbhz =
        some (combine_cn_db resp.uplink.cn_db resp.downlink.cn_db +
          10 * Real.logb 10 ((pyOr resp.downlink.bandwidth_hz
            resp.uplink.bandwidth_hz).getD 0)) ∧
      resp.uplink.modcod_selected =
        (select_modcod req.common_table
          (combine_cn_db resp.uplink.cn_db resp.downlink.cn_db +
            10 * Real.logb 10 ((pyOr resp.downlink.bandwidth_hz
              resp.uplink.bandwidth_hz).getD 0))
          (some ((pyOr resp.downlink.bandwidth_hz
            resp.uplink.bandwidth_hz).getD 0))
          req.rolloff).map (fun e => e.id) ∧
      resp.downlink.modcod_selected = resp.uplink.modcod_selected ∧
      resp.combined_link_margin_db =
        (select_modcod_with_margin req.common_table
          (combine_cn_db resp.uplink.cn_db resp.downlink.cn_db +
            10 * Real.logb 10 ((pyOr resp.downlink.bandwidth_hz
              resp.uplink.bandwidth_hz).getD 0))
          (some ((pyOr resp.downlink.bandwidth_hz
            resp.uplink.bandwidth_hz).getD 0))
          req.rolloff).2.2.2.1) := by
  obtain ⟨sb, uld, dld, lon, ulp, dlp, hresp⟩ :=
    calculateCore_ok_elim P req resp hok
  subst hresp
  constructor
  · intro hreg
    have hred : computeAndCombine P req sb uld dld lon ulp dlp =
        regenerativeCombine req.uplink_table req.downlink_table req.rolloff
          (impairedDirection P req sb uld
            (pipelineRuntime req lon ulp dlp) "uplink" false)
          (impairedDirection P req sb dld
            (pipelineRuntime req lon ulp dlp) "downlink"
            (CalculationService.estimate_c_im req.intermodulation).2)
          (strategy_calculate P req.context
            (pipelineRuntime req lon ulp dlp) "uplink").cn_db
          (strategy_calculate P req.context
            (pipelineRuntime req lon ulp dlp) "downlink").cn_db := by
      simp only [computeAndCombine, hreg]
    rw [hred]
    exact regenerativeCombine_spec _ _ _ _ _ _ _
      (impairedDirection_modcod_selected _ _ _ _ _ _ _)
      (impairedDirection_modcod_selected _ _ _ _ _ _ _)
  · intro htra hids
    have hred : computeAndCombine P req sb uld dld lon ulp dlp =
        transparentCombine req.common_table req.rolloff
          (impairedDirection P req sb uld
            (pipelineRuntime req lon ulp dlp) "uplink" false)
          (impairedDirection P req sb dld
            (pipelineRuntime req lon ulp dlp) "downlink"
            (CalculationService.estimate_c_im req.intermodulation).2)
          (strategy_calculate P req.context
            (pipelineRuntime req lon ulp dlp) "uplink").cn_db
          (strategy_calculate P req.context
            (pipelineRuntime req lon ulp dlp) "downlink").cn_db := by
      simp only [computeAndCombine, htra]
    rw [hred]
    exact transparentCombine_spec _ _ _ _ _ _
      (impairedDirection_modcod_selected _ _ _ _ _ _ _)
      (impairedDirection_modcod_selected _ _ _ _ _ _ _) hids

theorem regenRequest_ok :
    calculateCore zeroProviders regenRequest =
      .ok (computeAndCombine zeroProviders regenRequest none demoDirection
        demoDirection 10 demoUplinkParams demoDownlinkParams) := by
  have h1 : resolveBandwidth regenRequest.transponder_type
      regenRequest.runtime_bandwidth_hz regenRequest.uplink
      regenRequest.downlink = .ok (none, demoDirection, demoDirection) :=
    rfl
  have h2 : resolveSatLongitude regenRequest.runtime_sat_longitude_deg
      regenRequest.asset_sat_longitude_deg = .ok 10 := by
    show resolveSatLongitude (some 10) none = .ok 10
    norm_num [resolveSatLongitude, pyOr]
  have h3 : build_direction 10 demoDirection "uplink" =
      .ok demoUplinkParams := by
    norm_num [build_direction, demoDirection, pyOrD, demoUplinkParams]
  have h4 : build_direction 10 demoDirection "downlink" =
      .ok demoDownlinkParams := by
    norm_num [build_direction, demoDirection, pyOrD, demoDownlinkParams]
    decide
  unfold calculateCore
  simp only [h1, h2, h3, h4]

theorem transponder_combination_spec_witness :
    ∃ resp, calculateCore zeroProviders regenRequest = Except.ok resp ∧
      resp.combined_cn_db = none ∧
      resp.combined_link_margin_db =
        some (min resp.uplink.link_margin_db
          resp.downlink.link_margin_db) := by
  obtain ⟨h1, _, _, h4, _, _⟩ :=
    (transponder_combination_spec zeroProviders regenRequest _
      regenRequest_ok).1 rfl
  exact ⟨_, regenRequest_ok, h1, h4⟩

/-- C1 counterexample: a concrete completed Regenerative calculation whose
response carries a non-null `combined_link_margin_db` (the minimum of the
two per-direction margins), contradicting the claim that the field is null
for Regenerative requests. -/
theorem regenerative_margin_not_null :
    ∃ resp, calculateCore zeroProviders regenRequest = Except.ok resp ∧
      resp.combined_link_margin_db ≠ none := by
  refine ⟨_, regenRequest_ok, ?_⟩
  show (computeAndCombine zeroProviders regenRequest none demoDirection
      demoDirection 10 demoUplinkParams
      demoDownlinkParams).combined_link_margin_db ≠ none
  exact Option.some_ne_none _

theorem svc_apply_impairments_eq (r : CalculationResult) (bw : Option ℝ)
    (ioc : ℝ) (agg : Option ℝ) (fl ai : Bool) (cim : Option ℝ) :
    CalculationService.apply_impairments r bw ioc agg fl ai cim =
      apply_impairments r bw ioc agg fl ai cim := by
  cases bw with
  | none => rfl
  | some b => rfl

theorem apply_impairments_bandwidth (r : CalculationResult)
    (bw : Option ℝ) (ioc : ℝ) (agg : Option ℝ) (fl ai : Bool)
    (cim : Option ℝ) :
    (apply_impairments r bw ioc agg fl ai cim).bandwidth_hz =
      r.bandwidth_hz := by
  cases bw with
  | none => rfl
  | some b =>
    by_cases hb : b = 0
    · simp only [apply_impairments, if_pos hb]
    · simp only [apply_impairments, if_neg hb]

theorem apply_impairments_zero_bw (r : CalculationResult) (ioc : ℝ)
    (agg : Option ℝ) (fl ai : Bool) (cim : Option ℝ) :
    apply_impairments r (some 0) ioc agg fl ai cim = r := by
  simp [apply_impairments]

theorem pyOr_chain (B s : ℝ) :
    pyOr (pyOr (some B) (some s)) (some s) =
      some (if B = 0 then s else B) := by
  by_cases hB : B = 0
  · simp only [pyOr, if_pos hB, ite_self]
  · simp only [pyOr, if_neg hB]

theorem strategy_calculate_uplink_fields (P : Providers)
    (ctx : CommunicationContext) (rt : RuntimeParameters) :
    (strategy_calculate P ctx rt "uplink").cn_db =
      ctx.uplink_tx_eirp_dbw + ctx.uplink_rx_gt_db_per_k -
        (free_space_path_loss_db rt.uplink.frequency_hz
            (estimate_slant_range_km rt.uplink.ground_lat_deg
              rt.uplink.ground_lon_deg rt.uplink.ground_alt_m
              rt.sat_longitude_deg 0 GEO_ALTITUDE_KM) +
          rain_loss_db P rt.uplink.rain_rate_mm_per_hr
            rt.uplink.elevation_deg rt.uplink.ground_lat_deg
            rt.uplink.ground_lon_deg rt.uplink.ground_alt_m
            rt.uplink.frequency_hz +
          gas_loss_db P rt.uplink.frequency_hz rt.uplink.elevation_deg
            rt.uplink.temperature_k
            (rt.uplink.water_vapor_density.getD DEFAULT_WATER_VAPOR_DENSITY)
            (rt.uplink.pressure_hpa.getD DEFAULT_PRESSURE_HPA) +
          cloud_loss_db P rt.uplink.ground_lat_deg rt.uplink.ground_lon_deg
            rt.uplink.elevation_deg rt.uplink.frequency_hz 0.01 +
          pointing_loss_db rt.uplink.elevation_deg) - KB -
        10 * Real.logb 10 rt.uplink.bandwidth_hz ∧
    (strategy_calculate P ctx rt "uplink").bandwidth_hz =
      some rt.uplink.bandwidth_hz :=
  ⟨rfl, rfl⟩

theorem strategy_calculate_downlink_fields (P : Providers)
    (ctx : CommunicationContext) (rt : RuntimeParameters) :
    (strategy_calculate P ctx rt "downlink").cn_db =
      ctx.downlink_tx_eirp_dbw + ctx.downlink_rx_gt_db_per_k -
        (free_space_path_loss_db rt.downlink.frequency_hz
            (estimate_slant_range_km rt.downlink.ground_lat_deg
              rt.downlink.ground_lon_deg rt.downlink.ground_alt_m
              rt.sat_longitude_deg 0 GEO_ALTITUDE_KM) +
          rain_loss_db P rt.downlink.rain_rate_mm_per_hr
            rt.downlink.elevation_deg rt.downlink.ground_lat_deg
            rt.downlink.ground_lon_deg rt.downlink.ground_alt_m
            rt.downlink.frequency_hz +
          gas_loss_db P rt.downlink.frequency_hz rt.downlink.elevation_deg
            rt.downlink.temperature_k
            (rt.downlink.water_vapor_density.getD
              DEFAULT_WATER_VAPOR_DENSITY)
            (rt.downlink.pressure_hpa.getD DEFAULT_PRESSURE_HPA) +
          cloud_loss_db P rt.downlink.ground_lat_deg
            rt.downlink.ground_lon_deg rt.downlink.elevation_deg
            rt.downlink.frequency_hz 0.01 +
          pointing_loss_db rt.downlink.elevation_deg) - KB -
        10 * Real.logb 10 rt.downlink.bandwidth_hz ∧
    (strategy_calculate P ctx rt "downlink").bandwidth_hz =
      some rt.downlink.bandwidth_hz :=
  ⟨rfl, rfl⟩

theorem strategy_calculate_downlink_congr (P : Providers)
    (ctx : CommunicationContext) (rt rt' : RuntimeParameters)
    (hd : rt.downlink = rt'.downlink)
    (hs : rt.sat_longitude_deg = rt'.sat_longitude_deg) :
    strategy_calculate P ctx rt "downlink" =
      strategy_calculate P ctx rt' "downlink" := by
  have hne : ¬ ("downlink" = "uplink") := by decide
  simp only [strategy_calculate, if_neg hne]
  rw [hd, hs]

theorem impairedDirection_downlink_congr (P : Providers)
    (req req' : CalcRequest) (sb : Option ℝ) (dd : DirectionData)
    (rt rt' : RuntimeParameters) (ai : Bool)
    (hctx : req.context = req'.context)
    (him : req.intermodulation = req'.intermodulation)
    (hd : rt.downlink = rt'.downlink)
    (hs : rt.sat_longitude_deg = rt'.sat_longitude_deg) :
    impairedDirection P req sb dd rt "downlink" ai =
      impairedDirection P req' sb dd rt' "downlink" ai := by
  unfold impairedDirection
  rw [hctx, him,
    strategy_calculate_downlink_congr P req'.context rt rt' hd hs]

theorem impairedDirection_cn_db_eq (P : Providers) (req : CalcRequest)
    (sb : Option ℝ) (dd : DirectionData) (rt : RuntimeParameters)
    (dir : String) (ai : Bool) (bw : ℝ)
    (hbw : pyOr (pyOr (strategy_calculate P req.context rt dir).bandwidth_hz
      dd.bandwidth_hz) sb = some bw) (hbw0 : bw ≠ 0) :
    (impairedDirection P req sb dd rt dir ai).cn_db =
      10 * Real.logb 10 (1 /
        (1 / (10 : ℝ) ^
            ((strategy_calculate P req.context rt dir).cn_db / 10) +
          interferenceTerm (CalculationService.interference_inputs dd).1 +
          intermodTerm ai
            (CalculationService.estimate_c_im req.intermodulation).1)) := by
  show (CalculationService.apply_impairments
      (strategy_calculate P req.context rt dir)
      (pyOr (pyOr (strategy_calculate P req.context rt dir).bandwidth_hz
        dd.bandwidth_hz) sb)
      (CalculationService.interference_inputs dd).1
      (CalculationService.interference_inputs dd).2.1
      (CalculationService.interference_inputs dd).2.2 ai
      (CalculationService.estimate_c_im req.intermodulation).1).cn_db = _
  rw [svc_apply_impairments_eq, hbw]
  exact (apply_impairments_core _ bw hbw0 _ _ _ _ _).1

theorem impairedDirection_cn_db_zero (P : Providers) (req : CalcRequest)
    (sb : Option ℝ) (dd : DirectionData) (rt : RuntimeParameters)
    (dir : String) (ai : Bool)
    (hbw : pyOr (pyOr (strategy_calculate P req.context rt dir).bandwidth_hz
      dd.bandwidth_hz) sb = some 0) :
    (impairedDirection P req sb dd rt dir ai).cn_db =
      (strategy_calculate P req.context rt dir).cn_db := by
  show (CalculationService.apply_impairments
      (strategy_calculate P req.context rt dir)
      (pyOr (pyOr (strategy_calculate P req.context rt dir).bandwidth_hz
        dd.bandwidth_hz) sb)
      (CalculationService.interference_inputs dd).1
      (CalculationService.interference_inputs dd).2.1
      (CalculationService.interference_inputs dd).2.2 ai
      (CalculationService.estimate_c_im req.intermodulation).1).cn_db = _
  rw [svc_apply_impairments_eq, hbw, apply_impairments_zero_bw]

theorem impairedDirection_bandwidth_hz (P : Providers) (req : CalcRequest)
    (sb : Option ℝ) (dd : DirectionData) (rt : RuntimeParameters)
    (dir : String) (ai : Bool) :
    (impairedDirection P req sb dd rt dir ai).bandwidth_hz =
      (strategy_calculate P req.context rt dir).bandwidth_hz := by
  show (CalculationService.apply_impairments
      (strategy_calculate P req.context rt dir)
      (pyOr (pyOr (strategy_calculate P req.context rt dir).bandwidth_hz
        dd.bandwidth_hz) sb)
      (CalculationService.interference_inputs dd).1
      (CalculationService.interference_inputs dd).2.1
      (CalculationService.interference_inputs dd).2.2 ai
      (CalculationService.estimate_c_im req.intermodulation).1).bandwidth_hz
      = _
  rw [svc_apply_impairments_eq, apply_impairments_bandwidth]

theorem interferenceTerm_nonneg (x : ℝ) : 0 ≤ interferenceTerm x := by
  unfold interferenceTerm
  split_ifs with h
  · exact le_of_lt h
  · exact le_refl 0

theorem intermodTerm_nonneg (ai : Bool) (c : Option ℝ) :
    0 ≤ intermodTerm ai c := by
  cases c with
  | none => exact le_refl 0
  | some v =>
    simp only [intermodTerm]
    split_ifs with h
    · exact le_of_lt (div_pos one_pos (Real.rpow_pos_of_pos (by norm_num) _))
    · exact le_refl 0

theorem degraded_cn_mono (K : ℝ) (hK : 0 ≤ K) (c c' : ℝ) (h : c ≤ c') :
    10 * Real.logb 10 (1 / (1 / (10 : ℝ) ^ (c / 10) + K)) ≤
      10 * Real.logb 10 (1 / (1 / (10 : ℝ) ^ (c' / 10) + K)) := by
  have hp : (0 : ℝ) < (10 : ℝ) ^ (c / 10) :=
    Real.rpow_pos_of_pos (by norm_num) _
  have hp2 : (0 : ℝ) < (10 : ℝ) ^ (c' / 10) :=
    Real.rpow_pos_of_pos (by norm_num) _
  have hle : (10 : ℝ) ^ (c / 10) ≤ (10 : ℝ) ^ (c' / 10) :=
    (Real.rpow_le_rpow_left_iff (by norm_num : (1 : ℝ) < 10)).mpr
      (by linarith)
  have hd : 1 / (10 : ℝ) ^ (c' / 10) + K ≤ 1 / (10 : ℝ) ^ (c / 10) + K := by
    have := one_div_le_one_div_of_le hp hle
    linarith
  have hdpos : 0 < 1 / (10 : ℝ) ^ (c' / 10) + K := by
    have := one_div_pos.mpr hp2
    linarith
  have hfrac : 1 / (1 / (10 : ℝ) ^ (c / 10) + K) ≤
      1 / (1 / (10 : ℝ) ^ (c' / 10) + K) :=
    one_div_le_one_div_of_le hdpos hd
  have hlpos : 0 < 1 / (1 / (10 : ℝ) ^ (c / 10) + K) := by
    apply one_div_pos.mpr
    have := one_div_pos.mpr hp
    linarith
  have := Real.logb_le_logb_of_le (by norm_num : (1 : ℝ) < 10) hlpos hfrac
  linarith

theorem combine_cn_db_comm_eq (a b : ℝ) :
    combine_cn_db a b = combine_cn_db b a := by
  simp only [combine_cn_db]
  rw [add_comm]

theorem combine_cn_db_self_eq (a : ℝ) :
    combine_cn_db a a = a - 10 * Real.logb 10 2 := by
  simp only [combine_cn_db]
  have hpow : (0 : ℝ) < (10 : ℝ) ^ (a / 10) :=
    Real.rpow_pos_of_pos (by norm_num) _
  have h1 : 1 / (1 / (10 : ℝ) ^ (a / 10) + 1 / (10 : ℝ) ^ (a / 10)) =
      (10 : ℝ) ^ (a / 10) / 2 := by
    field_simp
    norm_num
  rw [h1, Real.logb_div (ne_of_gt hpow) two_ne_zero,
    Real.logb_rpow (by norm_num) (by norm_num)]
  ring

theorem combine_cn_db_lt_left (a a' b : ℝ) (h : a < a') :
    combine_cn_db a b < combine_cn_db a' b := by
  simp only [combine_cn_db]
  have hpa : (0 : ℝ) < (10 : ℝ) ^ (a / 10) :=
    Real.rpow_pos_of_pos (by norm_num) _
  have hpa2 : (0 : ℝ) < (10 : ℝ) ^ (a' / 10) :=
    Real.rpow_pos_of_pos (by norm_num) _
  have hpb : (0 : ℝ) < (10 : ℝ) ^ (b / 10) :=
    Real.rpow_pos_of_pos (by norm_num) _
  have hlt : (10 : ℝ) ^ (a / 10) < (10 : ℝ) ^ (a' / 10) :=
    (Real.rpow_lt_rpow_left_iff (by norm_num : (1 : ℝ) < 10)).mpr
      (by linarith)
  have hinv : 1 / (10 : ℝ) ^ (a' / 10) < 1 / (10 : ℝ) ^ (a / 10) :=
    one_div_lt_one_div_of_lt hpa hlt
  have hbpos : 0 < 1 / (10 : ℝ) ^ (b / 10) := one_div_pos.mpr hpb
  have hdpos : 0 < 1 / (10 : ℝ) ^ (a' / 10) + 1 / (10 : ℝ) ^ (b / 10) := by
    have := one_div_pos.mpr hpa2
    linarith
  have hfrac : 1 / (1 / (10 : ℝ) ^ (a / 10) + 1 / (10 : ℝ) ^ (b / 10)) <
      1 / (1 / (10 : ℝ) ^ (a' / 10) + 1 / (10 : ℝ) ^ (b / 10)) :=
    one_div_lt_one_div_of_lt hdpos (by linarith)
  have hlpos : 0 < 1 / (1 / (10 : ℝ) ^ (a / 10) + 1 / (10 : ℝ) ^ (b / 10))
      := by
    apply one_div_pos.mpr
    have := one_div_pos.mpr hpa
    linarith
  have := Real.logb_lt_logb (by norm_num : (1 : ℝ) < 10) hlpos hfrac
  linarith

theorem combine_cn_db_lt_right (a b b' : ℝ) (h : b < b') :
    combine_cn_db a b < combine_cn_db a b' := by
  rw [combine_cn_db_comm_eq a b, combine_cn_db_comm_eq a b']
  exact combine_cn_db_lt_left b b' a h

theorem combine_cn_db_le_left (a a' b : ℝ) (h : a ≤ a') :
    combine_cn_db a b ≤ combine_cn_db a' b := by
  rcases eq_or_lt_of_le h with rfl | hlt
  · exact le_refl _
  · exact le_of_lt (combine_cn_db_lt_left a a' b hlt)

theorem rain_loss_db_mono (P : Providers)
    (hmono : ∀ la lo f el hs x y, x ≤ y →
      P.rain_attenuation la lo f el hs x ≤ P.rain_attenuation la lo f el hs y)
    (hnn : ∀ la lo f el hs x, 0 ≤ x →
      0 ≤ P.rain_attenuation la lo f el hs x)
    (r1 r2 : ℝ) (h : r1 ≤ r2) (el la lo al f : ℝ) :
    rain_loss_db P r1 el la lo al f ≤ rain_loss_db P r2 el la lo al f := by
  unfold rain_loss_db
  by_cases h2 : r2 ≤ 0
  · rw [if_pos (le_trans h h2), if_pos h2]
  · rw [if_neg h2]
    by_cases h1 : r1 ≤ 0
    · rw [if_pos h1]
      exact hnn _ _ _ _ _ _ (le_of_lt (not_le.mp h2))
    · rw [if_neg h1]
      exact hmono _ _ _ _ _ _ _ h

theorem cn_roundtrip (x : ℝ) :
    10 * Real.logb 10 (1 / (1 / (10 : ℝ) ^ (x / 10) + 0 + 0)) = x := by
  rw [add_zero, add_zero, one_div_one_div,
    Real.logb_rpow (by norm_num) (by norm_num)]
  ring

theorem transparentCombine_cn0 (t : List ModcodEntry) (ro : Option ℝ)
    (up dn : CalculationResult) (a b : ℝ) :
    (transparentCombine t ro up dn a b).combined_cn0_dbhz =
      some (combine_cn_db up.cn_db dn.cn_db +
        10 * Real.logb 10
          ((pyOr dn.bandwidth_hz up.bandwidth_hz).getD 0)) := rfl

theorem transparentCombine_margin (t : List ModcodEntry) (ro : Option ℝ)
    (up dn : CalculationResult) (a b : ℝ) :
    (transparentCombine t ro up dn a b).combined_link_margin_db =
      (select_modcod_with_margin t
        (combine_cn_db up.cn_db dn.cn_db +
          10 * Real.logb 10
            ((pyOr dn.bandwidth_hz up.bandwidth_hz).getD 0))
        (some ((pyOr dn.bandwidth_hz up.bandwidth_hz).getD 0))
        ro).2.2.2.1 := rfl

theorem resolveBandwidth_rain_pair (rb : Option ℝ) (ul dl : DirectionData)
    (r1 r2 : ℝ) (sb : Option ℝ) (uld dld : DirectionData)
    (h : resolveBandwidth .TRANSPARENT rb
      { ul with rain_rate_mm_per_hr := some r1 } dl = .ok (sb, uld, dld)) :
    ∃ s, sb = some s ∧
      uld = { { ul with bandwidth_hz := some s } with
        rain_rate_mm_per_hr := some r1 } ∧
      dld = { dl with bandwidth_hz := some s } ∧
      resolveBandwidth .TRANSPARENT rb
        { ul with rain_rate_mm_per_hr := some r2 } dl =
        .ok (some s, { { ul with bandwidth_hz := some s } with
          rain_rate_mm_per_hr := some r2 }, dld) := by
  simp only [resolveBandwidth] at h ⊢
  cases hpy : pyOr (pyOr rb ul.bandwidth_hz) dl.bandwidth_hz with
  | none =>
    simp only [hpy] at h
    exact Except.noConfusion h
  | some s =>
    simp only [hpy] at h ⊢
    by_cases hc1 : bwConflicts ul.bandwidth_hz s
    · rw [if_pos hc1] at h
      exact Except.noConfusion h
    · rw [if_neg hc1] at h ⊢
      by_cases hc2 : bwConflicts dl.bandwidth_hz s
      · rw [if_pos hc2] at h
        exact Except.noConfusion h
      · rw [if_neg hc2] at h ⊢
        simp only [Except.ok.injEq, Prod.mk.injEq] at h
        obtain ⟨hsb, huld, hdld⟩ := h
        refine ⟨s, hsb.symm, huld.symm, hdld.symm, ?_⟩
        rw [hdld]

theorem build_direction_rain_pair (lon : ℝ) (u : DirectionData) (d : String)
    (r1 r2 : ℝ) (p : LinkDirectionParameters)
    (h : build_direction lon { u with rain_rate_mm_per_hr := some r1 } d =
      .ok p) :
    p.rain_rate_mm_per_hr = r1 ∧
    build_direction lon { u with rain_rate_mm_per_hr := some r2 } d =
      .ok { p with rain_rate_mm_per_hr := r2 } := by
  simp only [build_direction, Option.getD_some] at h ⊢
  rcases hf : u.frequency_hz with _ | f <;>
    rcases hb : u.bandwidth_hz with _ | bw <;>
    rcases hla : u.ground_lat_deg with _ | la <;>
    rcases hlo : u.ground_lon_deg with _ | lo <;>
    simp only [hf, hb, hla, hlo] at h ⊢
  all_goals try exact Except.noConfusion h
  rcases hel : u.elevation_deg with _ | ev <;> simp only [hel] at h ⊢
  · by_cases hE : compute_elevation lon la lo (pyOrD u.ground_alt_m 0) < 0
    · rw [if_pos hE] at h
      exact Except.noConfusion h
    · rw [if_neg hE] at h ⊢
      simp only [Except.ok.injEq] at h
      subst h
      exact ⟨rfl, rfl⟩
  · by_cases hE : ev < 0
    · rw [if_pos hE] at h
      exact Except.noConfusion h
    · rw [if_neg hE] at h ⊢
      simp only [Except.ok.injEq] at h
      subst h
      exact ⟨rfl, rfl⟩

theorem calculateCore_ok_elim_full (P : Providers) (req : CalcRequest)
    (resp : CalcResponse) (hok : calculateCore P req = .ok resp) :
    ∃ sb uld dld lon ulp dlp,
      resolveBandwidth req.transponder_type req.runtime_bandwidth_hz
        req.uplink req.downlink = .ok (sb, uld, dld) ∧
      resolveSatLongitude req.runtime_sat_longitude_deg
        req.asset_sat_longitude_deg = .ok lon ∧
      build_direction lon uld "uplink" = .ok ulp ∧
      build_direction lon dld "downlink" = .ok dlp ∧
      resp = computeAndCombine P req sb uld dld lon ulp dlp := by
  unfold calculateCore at hok
  cases h1 : resolveBandwidth req.transponder_type req.runtime_bandwidth_hz
      req.uplink req.downlink with
  | error e =>
    simp only [h1] at hok
    exact Except.noConfusion hok
  | ok trip =>
    obtain ⟨sb, uld, dld⟩ := trip
    simp only [h1] at hok
    cases h2 : resolveSatLongitude req.runtime_sat_longitude_deg
        req.asset_sat_longitude_deg with
    | error e =>
      simp only [h2] at hok
      exact Except.noConfusion hok
    | ok lon =>
      simp only [h2] at hok
      cases h3 : build_direction lon uld "uplink" with
      | error e =>
        simp only [h3] at hok
        exact Except.noConfusion hok
      | ok ulp =>
        simp only [h3] at hok
        cases h4 : build_direction lon dld "downlink" with
        | error e =>
          simp only [h4] at hok
          exact Except.noConfusion hok
        | ok dlp =>
          simp only [h4, Except.ok.injEq] at hok
          exact ⟨sb, uld, dld, lon, ulp, dlp, rfl, rfl, h3, h4, hok.symm⟩

theorem entrySatisfied_cn0_iff (c : ℝ) (bw : ℝ) (ro : Option ℝ)
    (e : ModcodEntry) (rc : ℝ) (hrc : e.required_cn0_dbhz = some rc) :
    entrySatisfied c (some bw) ro e ↔ rc ≤ c := by
  unfold entrySatisfied required_cn0
  simp only [hrc]
  exact sub_le_sub_iff_right _

theorem threshold_le_of_cn0 (e1 e2 : ModcodEntry) (x y : ℝ)
    (h1 : e1.required_cn0_dbhz = some x) (h2 : e2.required_cn0_dbhz = some y)
    (hxy : x ≤ y) : thresholdLE e1 e2 := by
  unfold thresholdLE threshold
  simp only [h1, h2]
  exact_mod_cast hxy

theorem sortedEntries_defaultTable : sortedEntries defaultTable =
    defaultTable := by
  apply List.Sorted.insertionSort_eq
  refine List.sorted_cons.mpr ⟨fun e he => ?_,
    List.sorted_cons.mpr ⟨fun e he => ?_, List.sorted_singleton _⟩⟩
  · rcases List.mem_cons.mp he with rfl | he2
    · exact threshold_le_of_cn0 _ _ _ _ rfl rfl (by norm_num)
    · rcases List.mem_cons.mp he2 with rfl | h3
      · exact threshold_le_of_cn0 _ _ _ _ rfl rfl (by norm_num)
      · exact absurd h3 (List.not_mem_nil e)
  · rcases List.mem_cons.mp he with rfl | he2
    · exact threshold_le_of_cn0 _ _ _ _ rfl rfl (by norm_num)
    · exact absurd he2 (List.not_mem_nil e)

theorem select_defaultTable_eq_low (c : ℝ) (h1 : (65 : ℝ) ≤ c)
    (h2 : ¬ (70 : ℝ) ≤ c) :
    select_modcod defaultTable c (some 1) none =
      some { id := "qpsk-1/4", modulation := "QPSK", code_rate := "1/4",
             required_cn0_dbhz := some 65.0,
             info_bits_per_symbol := some 0.5 } := by
  have hs1 : entrySatisfied c (some 1) none
      { id := "qpsk-1/4", modulation := "QPSK", code_rate := "1/4",
        required_cn0_dbhz := some 65.0, info_bits_per_symbol := some 0.5 } :=
    (entrySatisfied_cn0_iff c 1 none _ 65.0 rfl).mpr (by norm_num; linarith)
  have hs2 : ¬ entrySatisfied c (some 1) none
      { id := "qpsk-1/2", modulation := "QPSK", code_rate := "1/2",
        required_cn0_dbhz := some 70.0, info_bits_per_symbol := some 1.0 } :=
    fun hs => h2 (by
      have := (entrySatisfied_cn0_iff c 1 none _ 70.0 rfl).mp hs
      linarith)
  have hs3 : ¬ entrySatisfied c (some 1) none
      { id := "8psk-3/4", modulation := "8PSK", code_rate := "3/4",
        required_cn0_dbhz := some 78.0, info_bits_per_symbol := some 2.25 } :=
    fun hs => h2 (by
      have := (entrySatisfied_cn0_iff c 1 none _ 78.0 rfl).mp hs
      linarith)
  simp only [select_modcod, sortedEntries_defaultTable]
  simp only [defaultTable, List.foldl_cons, List.foldl_nil]
  rw [if_pos hs1, if_neg hs2, if_neg hs3]
  rfl

theorem select_defaultTable_eq_mid (c : ℝ) (h1 : (70 : ℝ) ≤ c)
    (h2 : ¬ (78 : ℝ) ≤ c) :
    select_modcod defaultTable c (some 1) none =
      some { id := "qpsk-1/2", modulation := "QPSK", code_rate := "1/2",
             required_cn0_dbhz := some 70.0,
             info_bits_per_symbol := some 1.0 } := by
  have hs1 : entrySatisfied c (some 1) none
      { id := "qpsk-1/4", modulation := "QPSK", code_rate := "1/4",
        required_cn0_dbhz := some 65.0, info_bits_per_symbol := some 0.5 } :=
    (entrySatisfied_cn0_iff c 1 none _ 65.0 rfl).mpr (by norm_num; linarith)
  have hs2 : entrySatisfied c (some 1) none
      { id := "qpsk-1/2", modulation := "QPSK", code_rate := "1/2",
        required_cn0_dbhz := some 70.0, info_bits_per_symbol := some 1.0 } :=
    (entrySatisfied_cn0_iff c 1 none _ 70.0 rfl).mpr (by norm_num; linarith)
  have hs3 : ¬ entrySatisfied c (some 1) none
      { id := "8psk-3/4", modulation := "8PSK", code_rate := "3/4",
        required_cn0_dbhz := some 78.0, info_bits_per_symbol := some 2.25 } :=
    fun hs => h2 (by
      have := (entrySatisfied_cn0_iff c 1 none _ 78.0 rfl).mp hs
      linarith)
  simp only [select_modcod, sortedEntries_defaultTable]
  simp only [defaultTable, List.foldl_cons, List.foldl_nil]
  rw [if_pos hs1, if_pos hs2, if_neg hs3]
  rfl

theorem select_defaultTable_eq_high (c : ℝ) (h1 : (78 : ℝ) ≤ c) :
    select_modcod defaultTable c (some 1) none =
      some { id := "8psk-3/4", modulation := "8PSK", code_rate := "3/4",
             required_cn0_dbhz := some 78.0,
             info_bits_per_symbol := some 2.25 } := by
  have hs3 : entrySatisfied c (some 1) none
      { id := "8psk-3/4", modulation := "8PSK", code_rate := "3/4",
        required_cn0_dbhz := some 78.0, info_bits_per_symbol := some 2.25 } :=
    (entrySatisfied_cn0_iff c 1 none _ 78.0 rfl).mpr (by norm_num; linarith)
  simp only [select_modcod, sortedEntries_defaultTable]
  simp only [defaultTable, List.foldl_cons, List.foldl_nil]
  rw [if_pos hs3]
  rfl

theorem select_margin_of_selected (t : List ModcodEntry) (c : ℝ) (bw : ℝ)
    (ro : Option ℝ) (e : ModcodEntry) (rc : ℝ)
    (hsel : select_modcod t c (some bw) ro = some e)
    (hrc : e.required_cn0_dbhz = some rc) :
    (select_modcod_with_margin t c (some bw) ro).2.2.2.1 =
      some (c - rc) := by
  unfold select_modcod_with_margin
  simp only [hsel, bitrate_bps, required_cn0, hrc]
  congr 1
  ring

theorem c6_slant :
    estimate_slant_range_km 0 0 0 0 0 GEO_ALTITUDE_KM = 35786 := by
  simp only [estimate_slant_range_km, EARTH_RADIUS_KM, GEO_ALTITUDE_KM]
  norm_num [Real.sin_zero, Real.cos_zero, Real.arccos_one]
  rw [show (1280637796 : ℝ) = 35786 ^ 2 by norm_num]
  exact Real.sqrt_sq (by norm_num)

theorem c6Request_ok (r : ℝ) :
    calculateCore c6Providers (c6Request r) =
      .ok (computeAndCombine c6Providers (c6Request r) (some 1)
        { demoDirection with rain_rate_mm_per_hr := some r } demoDirection 0
        { demoUplinkParams with rain_rate_mm_per_hr := r }
        demoDownlinkParams) := by
  have h1 : resolveBandwidth (c6Request r).transponder_type
      (c6Request r).runtime_bandwidth_hz (c6Request r).uplink
      (c6Request r).downlink =
      .ok (some 1, { demoDirection with rain_rate_mm_per_hr := some r },
        demoDirection) := by
    show resolveBandwidth .TRANSPARENT none
      { demoDirection with rain_rate_mm_per_hr := some r } demoDirection = _
    norm_num [resolveBandwidth, pyOr, bwConflicts, demoDirection]
  have h2 : resolveSatLongitude (c6Request r).runtime_sat_longitude_deg
      (c6Request r).asset_sat_longitude_deg = .ok 0 := rfl
  have h3 : build_direction 0
      { demoDirection with rain_rate_mm_per_hr := some r } "uplink" =
      .ok { demoUplinkParams with rain_rate_mm_per_hr := r } := by
    norm_num [build_direction, demoDirection, pyOrD, demoUplinkParams]
  have h4 : build_direction 0 demoDirection "downlink" =
      .ok demoDownlinkParams := by
    norm_num [build_direction, demoDirection, pyOrD, demoDownlinkParams]
    decide
  unfold calculateCore
  simp only [h1, h2, h3, h4]

theorem c6_strategy_up (r : ℝ) :
    (strategy_calculate c6Providers (c6Request r).context
      (pipelineRuntime (c6Request r) 0
        { demoUplinkParams with rain_rate_mm_per_hr := r }
        demoDownlinkParams) "uplink").cn_db =
      70 + 10 * Real.logb 10 2 - rain_loss_db c6Providers r 30 0 0 0 1 := by
  rw [(strategy_calculate_uplink_fields _ _ _).1]
  simp only [pipelineRuntime, c6Request, withUplinkRain, c6BaseRequest,
    c6Context, demoUplinkParams, Option.getD_none]
  rw [c6_slant]
  simp only [free_space_path_loss_db, gas_loss_db, cloud_loss_db,
    pointing_loss_db, c6Providers, c6Eirp, KB]
  rw [if_pos (by norm_num : (20 : ℝ) < 30),
    max_eq_left (by norm_num : (1e-3 : ℝ) ≤ 35786 * 1000), Real.logb_one]
  norm_num
  ring

theorem c6_strategy_dn (r : ℝ) :
    (strategy_calculate c6Providers (c6Request r).context
      (pipelineRuntime (c6Request r) 0
        { demoUplinkParams with rain_rate_mm_per_hr := r }
        demoDownlinkParams) "downlink").cn_db =
      70 + 10 * Real.logb 10 2 := by
  rw [(strategy_calculate_downlink_fields _ _ _).1]
  simp only [pipelineRuntime, c6Request, withUplinkRain, c6BaseRequest,
    c6Context, demoDownlinkParams, Option.getD_none]
  rw [c6_slant]
  simp only [free_space_path_loss_db, gas_loss_db, cloud_loss_db,
    pointing_loss_db, c6Providers, c6Eirp, KB]
  rw [if_pos (by norm_num : (20 : ℝ) < 30),
    max_eq_left (by norm_num : (1e-3 : ℝ) ≤ 35786 * 1000), Real.logb_one]
  rw [show rain_loss_db
      { rain_attenuation := fun _ _ _ _ _ rr => rr
        gaseous_attenuation := fun _ _ _ _ _ => 0
        cloud_attenuation := fun _ _ _ _ _ => 0 } 0 30 0 0 0 1 = 0 from by
    unfold rain_loss_db
    rw [if_pos le_rfl]]
  norm_num
  ring

theorem c6_up_fields (r : ℝ) :
    (impairedDirection c6Providers (c6Request r) (some 1)
        { demoDirection with rain_rate_mm_per_hr := some r }
        (pipelineRuntime (c6Request r) 0
          { demoUplinkParams with rain_rate_mm_per_hr := r }
          demoDownlinkParams) "uplink" false).cn_db =
      70 + 10 * Real.logb 10 2 - rain_loss_db c6Providers r 30 0 0 0 1 ∧
    (impairedDirection c6Providers (c6Request r) (some 1)
        { demoDirection with rain_rate_mm_per_hr := some r }
        (pipelineRuntime (c6Request r) 0
          { demoUplinkParams with rain_rate_mm_per_hr := r }
          demoDownlinkParams) "uplink" false).bandwidth_hz = some 1 := by
  have hbw : pyOr (pyOr
      (strategy_calculate c6Providers (c6Request r).context
        (pipelineRuntime (c6Request r) 0
          { demoUplinkParams with rain_rate_mm_per_hr := r }
          demoDownlinkParams) "uplink").bandwidth_hz
      ({ demoDirection with
        rain_rate_mm_per_hr := some r } : DirectionData).bandwidth_hz)
      (some 1) = some 1 := by
    rw [(strategy_calculate_uplink_fields _ _ _).2]
    simp only [pipelineRuntime]
    norm_num [pyOr, demoDirection, demoUplinkParams]
  constructor
  · rw [impairedDirection_cn_db_eq c6Providers (c6Request r) (some 1)
      { demoDirection with rain_rate_mm_per_hr := some r }
      (pipelineRuntime (c6Request r) 0
        { demoUplinkParams with rain_rate_mm_per_hr := r }
        demoDownlinkParams) "uplink" false 1 hbw one_ne_zero]
    have hioc : (CalculationService.interference_inputs
        { demoDirection with rain_rate_mm_per_hr := some r }).1 = 0 := by
      simp [CalculationService.interference_inputs, demoDirection]
    have him : (CalculationService.estimate_c_im
        (c6Request r).intermodulation).1 = none := rfl
    rw [hioc, him, show interferenceTerm 0 = 0 from by simp [interferenceTerm],
      show intermodTerm false none = 0 from rfl, cn_roundtrip]
    exact c6_strategy_up r
  · rw [impairedDirection_bandwidth_hz,
      (strategy_calculate_uplink_fields _ _ _).2]
    simp only [pipelineRuntime]
    norm_num [demoUplinkParams]

theorem c6_dn_fields (r : ℝ) :
    (impairedDirection c6Providers (c6Request r) (some 1) demoDirection
        (pipelineRuntime (c6Request r) 0
          { demoUplinkParams with rain_rate_mm_per_hr := r }
          demoDownlinkParams) "downlink"
        (CalculationService.estimate_c_im
          (c6Request r).intermodulation).2).cn_db =
      70 + 10 * Real.logb 10 2 ∧
    (impairedDirection c6Providers (c6Request r) (some 1) demoDirection
        (pipelineRuntime (c6Request r) 0
          { demoUplinkParams with rain_rate_mm_per_hr := r }
          demoDownlinkParams) "downlink"
        (CalculationService.estimate_c_im
          (c6Request r).intermodulation).2).bandwidth_hz = some 1 := by
  have hbw : pyOr (pyOr
      (strategy_calculate c6Providers (c6Request r).context
        (pipelineRuntime (c6Request r) 0
          { demoUplinkParams with rain_rate_mm_per_hr := r }
          demoDownlinkParams) "downlink").bandwidth_hz
      (demoDirection : DirectionData).bandwidth_hz) (some 1) = some 1 := by
    rw [(strategy_calculate_downlink_fields _ _ _).2]
    simp only [pipelineRuntime]
    norm_num [pyOr, demoDirection, demoDownlinkParams]
  constructor
  · rw [impairedDirection_cn_db_eq c6Providers (c6Request r) (some 1)
      demoDirection
      (pipelineRuntime (c6Request r) 0
        { demoUplinkParams with rain_rate_mm_per_hr := r }
        demoDownlinkParams) "downlink"
      (CalculationService.estimate_c_im (c6Request r).intermodulation).2
      1 hbw one_ne_zero]
    have hioc : (CalculationService.interference_inputs demoDirection).1 =
        0 := by
      simp [CalculationService.interference_inputs, demoDirection]
    have him : (CalculationService.estimate_c_im
        (c6Request r).intermodulation).1 = none := rfl
    rw [hioc, him, show interferenceTerm 0 = 0 from by simp [interferenceTerm],
      show ∀ b : Bool, intermodTerm b none = 0 from fun b => rfl,
      cn_roundtrip]
    exact c6_strategy_dn r
  · rw [impairedDirection_bandwidth_hz,
      (strategy_calculate_downlink_fields _ _ _).2]
    simp only [pipelineRuntime]
    norm_num [demoDownlinkParams]

theorem c6_response (r : ℝ) :
    (computeAndCombine c6Providers (c6Request r) (some 1)
        { demoDirection with rain_rate_mm_per_hr := some r } demoDirection 0
        { demoUplinkParams with rain_rate_mm_per_hr := r }
        demoDownlinkParams).combined_link_margin_db =
      (select_modcod_with_margin defaultTable
        (combine_cn_db
          (70 + 10 * Real.logb 10 2 - rain_loss_db c6Providers r 30 0 0 0 1)
          (70 + 10 * Real.logb 10 2))
        (some 1) none).2.2.2.1 ∧
    (computeAndCombine c6Providers (c6Request r) (some 1)
        { demoDirection with rain_rate_mm_per_hr := some r } demoDirection 0
        { demoUplinkParams with rain_rate_mm_per_hr := r }
        demoDownlinkParams).combined_cn0_dbhz =
      some (combine_cn_db
        (70 + 10 * Real.logb 10 2 - rain_loss_db c6Providers r 30 0 0 0 1)
        (70 + 10 * Real.logb 10 2)) := by
  have htt : (c6Request r).transponder_type = .TRANSPARENT := rfl
  have hred : computeAndCombine c6Providers (c6Request r) (some 1)
      { demoDirection with rain_rate_mm_per_hr := some r } demoDirection 0
      { demoUplinkParams with rain_rate_mm_per_hr := r } demoDownlinkParams =
      transparentCombine (c6Request r).common_table (c6Request r).rolloff
        (impairedDirection c6Providers (c6Request r) (some 1)
          { demoDirection with rain_rate_mm_per_hr := some r }
          (pipelineRuntime (c6Request r) 0
            { demoUplinkParams with rain_rate_mm_per_hr := r }
            demoDownlinkParams) "uplink" false)
        (impairedDirection c6Providers (c6Request r) (some 1) demoDirection
          (pipelineRuntime (c6Request r) 0
            { demoUplinkParams with rain_rate_mm_per_hr := r }
            demoDownlinkParams) "downlink"
          (CalculationService.estimate_c_im (c6Request r).intermodulation).2)
        (strategy_calculate c6Providers (c6Request r).context
          (pipelineRuntime (c6Request r) 0
            { demoUplinkParams with rain_rate_mm_per_hr := r }
            demoDownlinkParams) "uplink").cn_db
        (strategy_calculate c6Providers (c6Request r).context
          (pipelineRuntime (c6Request r) 0
            { demoUplinkParams with rain_rate_mm_per_hr := r }
            demoDownlinkParams) "downlink").cn_db := by
    simp only [computeAndCombine, htt]
  rw [hred, transparentCombine_margin, transparentCombine_cn0,
    (c6_up_fields r).1, (c6_up_fields r).2, (c6_dn_fields r).1,
    (c6_dn_fields r).2,
    show pyOr (some 1) (some 1) = some (1 : ℝ) from by norm_num [pyOr],
    show (c6Request r).common_table = defaultTable from rfl,
    show (c6Request r).rolloff = none from rfl]
  norm_num [Real.logb_one]

theorem c6_margin_zero :
    (computeAndCombine c6Providers (c6Request 0) (some 1)
        { demoDirection with rain_rate_mm_per_hr := some 0 } demoDirection 0
        { demoUplinkParams with rain_rate_mm_per_hr := 0 }
        demoDownlinkParams).combined_link_margin_db = some 0 ∧
    (computeAndCombine c6Providers (c6Request 0) (some 1)
        { demoDirection with rain_rate_mm_per_hr := some 0 } demoDirection 0
        { demoUplinkParams with rain_rate_mm_per_hr := 0 }
        demoDownlinkParams).combined_cn0_dbhz = some 70 := by
  obtain ⟨hm, hc⟩ := c6_response 0
  have hr0 : rain_loss_db c6Providers 0 30 0 0 0 1 = 0 := by
    unfold rain_loss_db
    rw [if_pos le_rfl]
  rw [hr0, sub_zero] at hm hc
  have hcc : combine_cn_db (70 + 10 * Real.logb 10 2)
      (70 + 10 * Real.logb 10 2) = 70 := by
    rw [combine_cn_db_self_eq]
    ring
  rw [hcc] at hm hc
  refine ⟨?_, hc⟩
  rw [hm, select_margin_of_selected defaultTable 70 1 none _ 70.0
    (select_defaultTable_eq_mid 70 le_rfl (by norm_num)) rfl]
  norm_num

theorem c6_margin_one :
    ∃ m, (computeAndCombine c6Providers (c6Request 1) (some 1)
        { demoDirection with rain_rate_mm_per_hr := some 1 } demoDirection 0
        { demoUplinkParams with rain_rate_mm_per_hr := 1 }
        demoDownlinkParams).combined_link_margin_db = some m ∧ 0 < m := by
  obtain ⟨hm, _⟩ := c6_response 1
  have hr1 : rain_loss_db c6Providers 1 30 0 0 0 1 = 1 := by
    unfold rain_loss_db c6Providers
    rw [if_neg (by norm_num : ¬ (1 : ℝ) ≤ 0)]
  rw [hr1] at hm
  set cc := combine_cn_db (70 + 10 * Real.logb 10 2 - 1)
    (70 + 10 * Real.logb 10 2) with hccdef
  have hub : cc < 70 := by
    have h1 : cc < combine_cn_db (70 + 10 * Real.logb 10 2)
        (70 + 10 * Real.logb 10 2) :=
      combine_cn_db_lt_left _ _ _ (by linarith)
    have h2 : combine_cn_db (70 + 10 * Real.logb 10 2)
        (70 + 10 * Real.logb 10 2) = 70 := by
      rw [combine_cn_db_self_eq]
      ring
    linarith
  have hlb : 69 < cc := by
    have h1 : combine_cn_db (70 + 10 * Real.logb 10 2 - 1)
        (70 + 10 * Real.logb 10 2 - 1) < cc :=
      combine_cn_db_lt_right _ _ _ (by linarith)
    have h2 : combine_cn_db (70 + 10 * Real.logb 10 2 - 1)
        (70 + 10 * Real.logb 10 2 - 1) = 69 := by
      rw [combine_cn_db_self_eq]
      ring
    linarith
  refine ⟨cc - 65.0, ?_, by linarith⟩
  rw [hm, select_margin_of_selected defaultTable cc 1 none _ 65.0
    (select_defaultTable_eq_low cc (by linarith) (not_le.mpr hub)) rfl]

/-- C6 counterexample: with the identity rain-attenuation provider
(monotone non-decreasing and nonnegative in the rain rate) and a concrete
Transparent request, raising the uplink rain rate from 0 to 1 mm/h moves
the combined C/N0 from 70 dBHz (selecting qpsk-1/2, margin exactly 0) into
(69, 70) dBHz, where the selection drops to qpsk-1/4 and the reported
combined link margin jumps to a strictly positive value: the margin
increased although rain increased. -/
theorem rain_margin_not_monotone :
    (∀ la lo f el hs x y, x ≤ y →
      c6Providers.rain_attenuation la lo f el hs x ≤
        c6Providers.rain_attenuation la lo f el hs y) ∧
    (∀ la lo f el hs x, 0 ≤ x →
      0 ≤ c6Providers.rain_attenuation la lo f el hs x) ∧
    ∃ resp0 resp1 m,
      calculateCore c6Providers (c6Request 0) = Except.ok resp0 ∧
      calculateCore c6Providers (c6Request 1) = Except.ok resp1 ∧
      resp0.combined_link_margin_db = some 0 ∧
      resp1.combined_link_margin_db = some m ∧ 0 < m := by
  refine ⟨fun _ _ _ _ _ x y h => h, fun _ _ _ _ _ x h => h, ?_⟩
  obtain ⟨m, hm, hmpos⟩ := c6_margin_one
  exact ⟨_, _, m, c6Request_ok 0, c6Request_ok 1, c6_margin_zero.1, hm,
    hmpos⟩

theorem degraded_cn_mono2 (A B : ℝ) (hA : 0 ≤ A) (hB : 0 ≤ B) (c c2 : ℝ)
    (h : c ≤ c2) :
    10 * Real.logb 10 (1 / (1 / (10 : ℝ) ^ (c / 10) + A + B)) ≤
      10 * Real.logb 10 (1 / (1 / (10 : ℝ) ^ (c2 / 10) + A + B)) := by
  have h0 := degraded_cn_mono (A + B) (by linarith) c c2 h
  rw [← add_assoc, ← add_assoc] at h0
  exact h0

/-- C6 (amended): with a rain-attenuation provider that is monotone
non-decreasing and nonnegative in the rain rate, increasing a Transparent
request's uplink rain rate while holding everything else fixed never
increases the combined C/N0 reported by `calculate`; the combined link
margin never increases as long as the ModCod selection is unchanged (for a
fixed selected entry the margin is monotone in the combined C/N0), but it
is NOT monotone across a re-selection boundary: dropping to a lower-order
ModCod re-bases the margin on the lower threshold, and the reported margin
can jump upward as rain increases (see the counterexample). -/
theorem rain_rate_margin_monotonicity :
    (∀ (P : Providers) (req : CalcRequest) (r1 r2 : ℝ)
      (resp1 resp2 : CalcResponse),
      (∀ la lo f el hs x y, x ≤ y →
        P.rain_attenuation la lo f el hs x ≤
          P.rain_attenuation la lo f el hs y) →
      (∀ la lo f el hs x, 0 ≤ x →
        0 ≤ P.rain_attenuation la lo f el hs x) →
      req.transponder_type = .TRANSPARENT →
      r1 ≤ r2 →
      calculateCore P (withUplinkRain req r1) = .ok resp1 →
      calculateCore P (withUplinkRain req r2) = .ok resp2 →
      ∀ c1 c2, resp1.combined_cn0_dbhz = some c1 →
        resp2.combined_cn0_dbhz = some c2 → c2 ≤ c1) ∧
    (∀ (t : List ModcodEntry) (ca cb : ℝ) (bw ro : Option ℝ),
      ca ≤ cb →
      select_modcod t ca bw ro = select_modcod t cb bw ro →
      ∀ m1 m2, (select_modcod_with_margin t ca bw ro).2.2.2.1 = some m1 →
        (select_modcod_with_margin t cb bw ro).2.2.2.1 = some m2 →
        m1 ≤ m2) := by
  constructor
  · intro P req r1 r2 resp1 resp2 hmono hnn htt hr hok1 hok2 c1 c2 hc1 hc2
    obtain ⟨sb1, uld1, dld1, lon1, ulp1, dlp1, e1b, e1l, e1u, e1d, e1r⟩ :=
      calculateCore_ok_elim_full P (withUplinkRain req r1) resp1 hok1
    obtain ⟨sb2, uld2, dld2, lon2, ulp2, dlp2, e2b, e2l, e2u, e2d, e2r⟩ :=
      calculateCore_ok_elim_full P (withUplinkRain req r2) resp2 hok2
    simp only [withUplinkRain] at e1b e1l e1u e1d e1r e2b e2l e2u e2d e2r
    rw [htt] at e1b e2b
    obtain ⟨s, hsb1, huld1, hdld1, hrun2⟩ :=
      resolveBandwidth_rain_pair req.runtime_bandwidth_hz req.uplink
        req.downlink r1 r2 sb1 uld1 dld1 e1b
    rw [hrun2] at e2b
    simp only [Except.ok.injEq, Prod.mk.injEq] at e2b
    obtain ⟨hsb2, huld2, hdld2⟩ := e2b
    subst hsb1
    subst hsb2
    subst huld1
    subst huld2
    subst hdld1
    subst hdld2
    rw [e1l] at e2l
    simp only [Except.ok.injEq] at e2l
    subst e2l
    obtain ⟨hrain1, hbd2⟩ :=
      build_direction_rain_pair lon1
        { req.uplink with bandwidth_hz := some s } "uplink" r1 r2 ulp1 e1u
    rw [hbd2] at e2u
    simp only [Except.ok.injEq] at e2u
    subst e2u
    rw [e1d] at e2d
    simp only [Except.ok.injEq] at e2d
    subst e2d
    subst e1r
    subst e2r
    simp only [computeAndCombine, pipelineRuntime, htt] at hc1 hc2
    rw [transparentCombine_cn0] at hc1 hc2
    simp only [Option.some.injEq] at hc1 hc2
    have hval1 : c1 = combine_cn_db
        (impairedDirection P
          { req with uplink :=
            { req.uplink with rain_rate_mm_per_hr := some r1 } } (some s)
          { req.uplink with
            bandwidth_hz := some s
            rain_rate_mm_per_hr := some r1 }
          { sat_longitude_deg := lon1, uplink := ulp1, downlink := dlp1,
            rolloff := req.rolloff } "uplink" false).cn_db
        (impairedDirection P
          { req with uplink :=
            { req.uplink with rain_rate_mm_per_hr := some r1 } } (some s)
          { req.downlink with bandwidth_hz := some s }
          { sat_longitude_deg := lon1, uplink := ulp1, downlink := dlp1,
            rolloff := req.rolloff } "downlink"
          (CalculationService.estimate_c_im
            req.intermodulation).2).cn_db +
        10 * Real.logb 10 ((pyOr
          (impairedDirection P
            { req with uplink :=
              { req.uplink with rain_rate_mm_per_hr := some r1 } } (some s)
            { req.downlink with bandwidth_hz := some s }
            { sat_longitude_deg := lon1, uplink := ulp1, downlink := dlp1,
              rolloff := req.rolloff } "downlink"
            (CalculationService.estimate_c_im
              req.intermodulation).2).bandwidth_hz
          (impairedDirection P
            { req with uplink :=
              { req.uplink with rain_rate_mm_per_hr := some r1 } } (some s)
            { req.uplink with
              bandwidth_hz := some s
              rain_rate_mm_per_hr := some r1 }
            { sat_longitude_deg := lon1, uplink := ulp1, downlink := dlp1,
              rolloff := req.rolloff } "uplink"
            false).bandwidth_hz).getD 0) := hc1.symm.trans rfl
    have hval2 : c2 = combine_cn_db
        (impairedDirection P
          { req with uplink :=
            { req.uplink with rain_rate_mm_per_hr := some r2 } } (some s)
          { req.uplink with
            bandwidth_hz := some s
            rain_rate_mm_per_hr := some r2 }
          { sat_longitude_deg := lon1,
            uplink := { ulp1 with rain_rate_mm_per_hr := r2 },
            downlink := dlp1, rolloff := req.rolloff } "uplink"
            false).cn_db
        (impairedDirection P
          { req with uplink :=
            { req.uplink with rain_rate_mm_per_hr := some r2 } } (some s)
          { req.downlink with bandwidth_hz := some s }
          { sat_longitude_deg := lon1,
            uplink := { ulp1 with rain_rate_mm_per_hr := r2 },
            downlink := dlp1, rolloff := req.rolloff } "downlink"
          (CalculationService.estimate_c_im
            req.intermodulation).2).cn_db +
        10 * Real.logb 10 ((pyOr
          (impairedDirection P
            { req with uplink :=
              { req.uplink with rain_rate_mm_per_hr := some r2 } } (some s)
            { req.downlink with bandwidth_hz := some s }
            { sat_longitude_deg := lon1,
              uplink := { ulp1 with rain_rate_mm_per_hr := r2 },
              downlink := dlp1, rolloff := req.rolloff } "downlink"
            (CalculationService.estimate_c_im
              req.intermodulation).2).bandwidth_hz
          (impairedDirection P
            { req with uplink :=
              { req.uplink with rain_rate_mm_per_hr := some r2 } } (some s)
            { req.uplink with
              bandwidth_hz := some s
              rain_rate_mm_per_hr := some r2 }
            { sat_longitude_deg := lon1,
              uplink := { ulp1 with rain_rate_mm_per_hr := r2 },
              downlink := dlp1, rolloff := req.rolloff } "uplink"
            false).bandwidth_hz).getD 0) := hc2.symm.trans rfl
    rw [hval1, hval2]
    have hupcn : (strategy_calculate P
        ({ req with uplink :=
          { req.uplink with rain_rate_mm_per_hr := some r2 } } :
          CalcRequest).context
        { sat_longitude_deg := lon1,
          uplink := { ulp1 with rain_rate_mm_per_hr := r2 },
          downlink := dlp1, rolloff := req.rolloff } "uplink").cn_db ≤
        (strategy_calculate P
        ({ req with uplink :=
          { req.uplink with rain_rate_mm_per_hr := some r1 } } :
          CalcRequest).context
        { sat_longitude_deg := lon1, uplink := ulp1, downlink := dlp1,
          rolloff := req.rolloff } "uplink").cn_db := by
      rw [(strategy_calculate_uplink_fields _ _ _).1,
        (strategy_calculate_uplink_fields _ _ _).1]
      have hloss := rain_loss_db_mono P hmono hnn r1 r2 hr
        ulp1.elevation_deg ulp1.ground_lat_deg ulp1.ground_lon_deg
        ulp1.ground_alt_m ulp1.frequency_hz
      simp only [hrain1]
      linarith [hloss]
    have hchain1 : pyOr (pyOr (strategy_calculate P
        ({ req with uplink :=
          { req.uplink with rain_rate_mm_per_hr := some r1 } } :
          CalcRequest).context
        { sat_longitude_deg := lon1, uplink := ulp1, downlink := dlp1,
          rolloff := req.rolloff } "uplink").bandwidth_hz
        ({ req.uplink with
          bandwidth_hz := some s
          rain_rate_mm_per_hr := some r1 } : DirectionData).bandwidth_hz)
        (some s) =
        some (if ulp1.bandwidth_hz = 0 then s else ulp1.bandwidth_hz) := by
      rw [(strategy_calculate_uplink_fields _ _ _).2]
      show pyOr (pyOr (some ulp1.bandwidth_hz) (some s)) (some s) = _
      exact pyOr_chain _ _
    have hchain2 : pyOr (pyOr (strategy_calculate P
        ({ req with uplink :=
          { req.uplink with rain_rate_mm_per_hr := some r2 } } :
          CalcRequest).context
        { sat_longitude_deg := lon1,
          uplink := { ulp1 with rain_rate_mm_per_hr := r2 },
          downlink := dlp1, rolloff := req.rolloff } "uplink").bandwidth_hz
        ({ req.uplink with
          bandwidth_hz := some s
          rain_rate_mm_per_hr := some r2 } : DirectionData).bandwidth_hz)
        (some s) =
        some (if ulp1.bandwidth_hz = 0 then s else ulp1.bandwidth_hz) := by
      rw [(strategy_calculate_uplink_fields _ _ _).2]
      show pyOr (pyOr (some ulp1.bandwidth_hz) (some s)) (some s) = _
      exact pyOr_chain _ _
    have hup : (impairedDirection P
        { req with uplink :=
          { req.uplink with rain_rate_mm_per_hr := some r2 } } (some s)
        { req.uplink with
          bandwidth_hz := some s
          rain_rate_mm_per_hr := some r2 }
        { sat_longitude_deg := lon1,
          uplink := { ulp1 with rain_rate_mm_per_hr := r2 },
          downlink := dlp1, rolloff := req.rolloff } "uplink"
        false).cn_db ≤
        (impairedDirection P
        { req with uplink :=
          { req.uplink with rain_rate_mm_per_hr := some r1 } } (some s)
        { req.uplink with
          bandwidth_hz := some s
          rain_rate_mm_per_hr := some r1 }
        { sat_longitude_deg := lon1, uplink := ulp1, downlink := dlp1,
          rolloff := req.rolloff } "uplink" false).cn_db := by
      by_cases hbv : (if ulp1.bandwidth_hz = 0 then s
          else ulp1.bandwidth_hz) = 0
      · rw [impairedDirection_cn_db_zero P _ (some s) _ _ "uplink" false
            (hbv ▸ hchain2),
          impairedDirection_cn_db_zero P _ (some s) _ _ "uplink" false
            (hbv ▸ hchain1)]
        exact hupcn
      · rw [impairedDirection_cn_db_eq P _ (some s) _ _ "uplink" false _
            hchain2 hbv,
          impairedDirection_cn_db_eq P _ (some s) _ _ "uplink" false _
            hchain1 hbv]
        have hKi : CalculationService.interference_inputs
            ({ req.uplink with
              bandwidth_hz := some s
              rain_rate_mm_per_hr := some r2 } : DirectionData) =
            CalculationService.interference_inputs
            ({ req.uplink with
              bandwidth_hz := some s
              rain_rate_mm_per_hr := some r1 } : DirectionData) := by
          simp [CalculationService.interference_inputs]
        have hKm : CalculationService.estimate_c_im
            ({ req with uplink :=
              { req.uplink with rain_rate_mm_per_hr := some r2 } } :
              CalcRequest).intermodulation =
            CalculationService.estimate_c_im
            ({ req with uplink :=
              { req.uplink with rain_rate_mm_per_hr := some r1 } } :
              CalcRequest).intermodulation := rfl
        rw [hKi, hKm]
        exact degraded_cn_mono2 _ _ (interferenceTerm_nonneg _)
          (intermodTerm_nonneg _ _) _ _ hupcn
    have hdneq :
        impairedDirection P
            { req with uplink :=
              { req.uplink with rain_rate_mm_per_hr := some r2 } } (some s)
            { req.downlink with bandwidth_hz := some s }
            { sat_longitude_deg := lon1,
              uplink := { ulp1 with rain_rate_mm_per_hr := r2 },
              downlink := dlp1, rolloff := req.rolloff } "downlink"
            (CalculationService.estimate_c_im req.intermodulation).2 =
          impairedDirection P
            { req with uplink :=
              { req.uplink with rain_rate_mm_per_hr := some r1 } } (some s)
            { req.downlink with bandwidth_hz := some s }
            { sat_longitude_deg := lon1, uplink := ulp1,
              downlink := dlp1, rolloff := req.rolloff } "downlink"
            (CalculationService.estimate_c_im req.intermodulation).2 :=
      impairedDirection_downlink_congr P _ _ _ _ _ _ _ rfl rfl rfl rfl
    rw [hdneq]
    have hub1 : (impairedDirection P
        { req with uplink :=
          { req.uplink with rain_rate_mm_per_hr := some r1 } } (some s)
        { req.uplink with
          bandwidth_hz := some s
          rain_rate_mm_per_hr := some r1 }
        { sat_longitude_deg := lon1, uplink := ulp1, downlink := dlp1,
          rolloff := req.rolloff } "uplink" false).bandwidth_hz =
        some ulp1.bandwidth_hz := by
      rw [impairedDirection_bandwidth_hz,
        (strategy_calculate_uplink_fields _ _ _).2]
    have hub2 : (impairedDirection P
        { req with uplink :=
          { req.uplink with rain_rate_mm_per_hr := some r2 } } (some s)
        { req.uplink with
          bandwidth_hz := some s
          rain_rate_mm_per_hr := some r2 }
        { sat_longitude_deg := lon1,
          uplink := { ulp1 with rain_rate_mm_per_hr := r2 },
          downlink := dlp1, rolloff := req.rolloff } "uplink"
        false).bandwidth_hz = some ulp1.bandwidth_hz := by
      rw [impairedDirection_bandwidth_hz,
        (strategy_calculate_uplink_fields _ _ _).2]
    rw [hub1, hub2]
    exact add_le_add_right (combine_cn_db_le_left _ _ _ hup) _
  · intro t ca cb bw ro hcle hsel m1 m2 hm1 hm2
    unfold select_modcod_with_margin at hm1 hm2
    cases hs : select_modcod t ca bw ro with
    | none =>
      simp only [hs] at hm1
      exact Option.noConfusion hm1
    | some e =>
      have hs2 : select_modcod t cb bw ro = some e := hsel.symm.trans hs
      simp only [hs] at hm1
      simp only [hs2] at hm2
      cases hbr : bitrate_bps e bw ro with
      | none =>
        simp only [hbr] at hm1
        exact Option.noConfusion hm1
      | some br =>
        simp only [hbr] at hm1 hm2
        cases hrc : required_cn0 e bw with
        | some rc =>
          simp only [hrc, Option.some.injEq] at hm1 hm2
          linarith
        | none =>
          simp only [hrc] at hm1 hm2
          cases hreb : e.required_ebno_db with
          | none =>
            simp only [hreb] at hm1
            exact Option.noConfusion hm1
          | some re =>
            simp only [hreb, Option.some.injEq] at hm1 hm2
            linarith

theorem rain_rate_margin_monotonicity_witness :
    (70 : ℝ) ≤ 70 ∧ (2 : ℝ) ≤ 3 := by
  constructor
  · exact rain_rate_margin_monotonicity.1 c6Providers c6BaseRequest 0 0 _ _
      (fun _ _ _ _ _ x y h => h) (fun _ _ _ _ _ x h => h) rfl le_rfl
      (c6Request_ok 0) (c6Request_ok 0) 70 70 c6_margin_zero.2
      c6_margin_zero.2
  · exact rain_rate_margin_monotonicity.2 defaultTable 80 81 (some 1) none
      (by norm_num)
      ((select_defaultTable_eq_high 80 (by norm_num)).trans
        (select_defaultTable_eq_high 81 (by norm_num)).symm)
      2 3
      (by
        rw [select_margin_of_selected defaultTable 80 1 none _ 78.0
          (select_defaultTable_eq_high 80 (by norm_num)) rfl]
        norm_num)
      (by
        rw [select_margin_of_selected defaultTable 81 1 none _ 78.0
          (select_defaultTable_eq_high 81 (by norm_num)) rfl]
        norm_num)

end LinkBudget
